import Mathlib

/-!
# Verification of `xoshiro256.hpp`

A shallow embedding of the generators in `xoshiro256.hpp` (splitmix64,
xoshiro256**, xoshiro256+, their jump/long-jump stream partitioners, the
`uniform` rejection sampler and the binary debug formatter), together with
proofs of the specified properties.

Machine integers (`uint64_t`) are embedded as `Nat`, with `% 2^64` exactly
where the C++ operation can wrap (`<<`, `*`, `+`); `^`, `|` and `>>` cannot
wrap.  `double` values in `uniform` are idealized as real numbers, reading
the arithmetic expressions of the source symbolically.
-/

namespace Xoshiro256

/-- The modulus of `uint64_t` arithmetic. -/
def M64 : Nat := 2 ^ 64

/-- The largest `uint64_t` value, `std::numeric_limits<uint64_t>::max()`. -/
def uint64Max : Nat := 2 ^ 64 - 1

/-- `rotl` from the source: `(x << k) | (x >> (64 - k))` on `uint64_t`;
the left shift wraps modulo `2^64`. -/
def rotl (x : Nat) (k : Nat) : Nat := ((x <<< k) % M64) ||| (x >>> (64 - k))

/-- The four 64-bit state words `s[0] … s[3]` of `xoshiro256ss`/`xoshiro256p`. -/
structure State where
  s0 : Nat
  s1 : Nat
  s2 : Nat
  s3 : Nat
deriving DecidableEq

/-- The all-zero state. -/
def zeroState : State := ⟨0, 0, 0, 0⟩

/-- Componentwise XOR of two states. -/
def xorState (a b : State) : State :=
  ⟨a.s0 ^^^ b.s0, a.s1 ^^^ b.s1, a.s2 ^^^ b.s2, a.s3 ^^^ b.s3⟩

/-- Well-formedness: each state word fits in 64 bits, as `uint64_t` guarantees. -/
def State.ok (s : State) : Prop :=
  s.s0 < M64 ∧ s.s1 < M64 ∧ s.s2 < M64 ∧ s.s3 < M64

instance (s : State) : Decidable s.ok := by unfold State.ok; infer_instance

/-- `xoshiro256ss::operator()`: the returned value and the updated state,
translated statement by statement from the source. -/
def ssNext (s : State) : Nat × State :=
  let result := (rotl ((s.s1 * 5) % M64) 7 * 9) % M64
  let t := (s.s1 <<< 17) % M64
  let s2 := s.s2 ^^^ s.s0
  let s3 := s.s3 ^^^ s.s1
  let s1 := s.s1 ^^^ s2
  let s0 := s.s0 ^^^ s3
  let s2 := s2 ^^^ t
  let s3 := rotl s3 45
  (result, ⟨s0, s1, s2, s3⟩)

/-- `xoshiro256p::operator()`: the returned value and the updated state,
translated statement by statement from the source. -/
def pNext (s : State) : Nat × State :=
  let result := (s.s0 + s.s3) % M64
  let t := (s.s1 <<< 17) % M64
  let s2 := s.s2 ^^^ s.s0
  let s3 := s.s3 ^^^ s.s1
  let s1 := s.s1 ^^^ s2
  let s0 := s.s0 ^^^ s3
  let s2 := s2 ^^^ t
  let s3 := rotl s3 45
  (result, ⟨s0, s1, s2, s3⟩)

/-- The shared state advance (the state effect of one raw output call). -/
def step (s : State) : State :=
  let t := (s.s1 <<< 17) % M64
  let s2 := s.s2 ^^^ s.s0
  let s3 := s.s3 ^^^ s.s1
  let s1 := s.s1 ^^^ s2
  let s0 := s.s0 ^^^ s3
  let s2' := s2 ^^^ t
  let s3' := rotl s3 45
  ⟨s0, s1, s2', s3'⟩

/-- `n` consecutive raw output calls (state effect only). -/
def stepIter : Nat → State → State
  | 0, s => s
  | n + 1, s => stepIter n (step s)

/-- `splitmix64::operator()`: the returned value and the updated state `x`,
translated statement by statement from the source. -/
def splitmix64Next (x : Nat) : Nat × Nat :=
  let x' := (x + 0x9e3779b97f4a7c15) % M64
  let z := x'
  let z := ((z ^^^ (z >>> 30)) * 0xbf58476d1ce4e5b9) % M64
  let z := ((z ^^^ (z >>> 27)) * 0x94d049bb133111eb) % M64
  (z ^^^ (z >>> 31), x')

/-- The constant table of `xoshiro256ss::jump`. -/
def JUMP : List Nat :=
  [0x180ec6d33cfd0aba, 0xd5a61266f0c9392c, 0xa9582618e03fc9aa, 0x39abdc4529b1661c]

/-- The constant table of `xoshiro256ss::long_jump`. -/
def LONG_JUMP : List Nat :=
  [0x76e15d3efefdcbbf, 0xc5004e441c522fb3, 0x77710069854ee241, 0x39109bb02acbe635]

/-- The inner loop of `jump`/`long_jump`: for `b = 0 … 63`, XOR the accumulator
with the current state when bit `b` of the constant `c` is set
(`JUMP[i] & UINT64_C(1) << b`), then advance the state by one discarded output
call.  The pair is (accumulator, state). -/
def jumpInner (c : Nat) (p : State × State) : State × State :=
  (List.range 64).foldl
    (fun p b => (if c &&& (1 <<< b) ≠ 0 then xorState p.1 p.2 else p.1, step p.2)) p

/-- The outer loop of `jump`/`long_jump` over the table of constants; the final
state is the accumulator. -/
def jumpTable (tbl : List Nat) (s : State) : State :=
  (tbl.foldl (fun p c => jumpInner c p) (zeroState, s)).1

/-- `xoshiro256ss::jump` (state effect). -/
def jump (s : State) : State := jumpTable JUMP s

/-- `xoshiro256ss::long_jump` (state effect). -/
def long_jump (s : State) : State := jumpTable LONG_JUMP s

/-- The rejection loop of `uniform`: draw, and redraw as long as the draw is
`0` or `UINT64_MAX`.  Fuel bounds the number of draws; `none` means the loop
did not accept within `fuel` draws. -/
def uniformLoop : Nat → State → Option (Nat × State)
  | 0, _ => none
  | fuel + 1, s =>
    let n := (ssNext s).1
    if n = 0 ∨ n = uint64Max then uniformLoop fuel (ssNext s).2
    else some (n, (ssNext s).2)

/-- `xoshiro256ss::uniform(low, high)`, the `double` arithmetic idealized as
exact rational arithmetic: `low + (high-low)*n/((double)UINT64_MAX)`. -/
def uniform (fuel : Nat) (s : State) (low high : ℚ) : Option (ℚ × State) :=
  (uniformLoop fuel s).map fun p =>
    (low + (high - low) * (p.1 : ℚ) / (uint64Max : ℚ), p.2)

/-- The loop body of `UI64T2String`: 64 times, prepend the digit `copy & 1`
and shift `copy` down. -/
def toBinAux : Nat → Nat → List Char → List Char
  | 0, _, res => res
  | i + 1, copy, res =>
    toBinAux i (copy >>> 1) ((if copy &&& 1 = 1 then '1' else '0') :: res)

/-- `UI64T2String`: the 64-character binary rendering of a `uint64_t`. -/
def UI64T2String (input : Nat) : String := String.mk (toBinAux 64 input [])

/-- Parsing a string of binary digits back as a base-2 integer,
most-significant digit first. -/
def parseBin (str : String) : Nat :=
  str.data.foldl (fun acc c => 2 * acc + (if c = '1' then 1 else 0)) 0

/-- Modelled from the spec (§4.2): the state transition written as the spec's
sequence of updates `t = s1 << 17; s2 ^= s0; s3 ^= s1; s1 ^= s2; s0 ^= s3;
s2 ^= t; s3 = rotate_left(s3, 45)`. -/
def advanceSpec (s : State) : State :=
  let t := (s.s1 <<< 17) % M64
  let s2 := s.s2 ^^^ s.s0
  let s3 := s.s3 ^^^ s.s1
  let s1 := s.s1 ^^^ s2
  let s0 := s.s0 ^^^ s3
  let s2 := s2 ^^^ t
  let s3 := rotl s3 45
  ⟨s0, s1, s2, s3⟩

/-- Modelled from the spec (§4.1): the seed expander — increment `x` by the
golden-gamma constant, then apply the three XOR-shift/multiply mixing steps,
all modulo `2^64`. -/
def splitmixSpec (x : Nat) : Nat × Nat :=
  let incremented := (x + 0x9e3779b97f4a7c15) % M64
  let a := ((incremented ^^^ (incremented >>> 30)) * 0xbf58476d1ce4e5b9) % M64
  let b := ((a ^^^ (a >>> 27)) * 0x94d049bb133111eb) % M64
  (b ^^^ (b >>> 31), incremented)

/-- Modelled from the spec (§4.5): iterate over the 256 bits of the four
constants (concatenated into `mask`, first constant's least-significant bit
first); XOR the accumulator with the current state when the bit is set, advance
the state unconditionally; after all 256 bits the state is the accumulator. -/
def specJumpAlg (mask : Nat) (s : State) : State :=
  ((List.range 256).foldl
    (fun p i => (if mask.testBit i then xorState p.1 p.2 else p.1, step p.2))
    (zeroState, s)).1

/-- The four `JUMP` constants as one 256-bit mask. -/
def jumpMask : Nat :=
  0x180ec6d33cfd0aba + 0xd5a61266f0c9392c * 2 ^ 64 +
    0xa9582618e03fc9aa * 2 ^ 128 + 0x39abdc4529b1661c * 2 ^ 192

/-- The four `LONG_JUMP` constants as one 256-bit mask. -/
def longJumpMask : Nat :=
  0x76e15d3efefdcbbf + 0xc5004e441c522fb3 * 2 ^ 64 +
    0x77710069854ee241 * 2 ^ 128 + 0x39109bb02acbe635 * 2 ^ 192

/-! ## Claims C1–C4: the output functions and the shared state advance -/

/-- C1: one raw output call of either variant transforms the state by exactly
the spec's sequence `t = s1 << 17; s2 ^= s0; s3 ^= s1; s1 ^= s2; s0 ^= s3;
s2 ^= t; s3 = rotate_left(s3, 45)`; both variants perform this identical
state advance, so from equal starting states the post-call states agree. -/
theorem c1_shared_state_advance (s : State) :
    (ssNext s).2 = advanceSpec s ∧ (pNext s).2 = advanceSpec s ∧
      (ssNext s).2 = (pNext s).2 :=
  ⟨rfl, rfl, rfl⟩

/-- C2: `xoshiro256ss::operator()` returns `rotl(s1 * 5, 7) * 9` computed from
the pre-update state, both multiplications modulo `2^64`, and applies the
§4.2 transition before returning. -/
theorem c2_ss_output (s : State) :
    (ssNext s).1 = (rotl ((s.s1 * 5) % M64) 7 * 9) % M64 ∧
      (ssNext s).2 = advanceSpec s :=
  ⟨rfl, rfl⟩

/-- C3: `xoshiro256p::operator()` returns `s0 + s3` modulo `2^64` computed from
the pre-update state, and applies the same §4.2 transition before returning. -/
theorem c3_p_output (s : State) :
    (pNext s).1 = (s.s0 + s.s3) % M64 ∧ (pNext s).2 = advanceSpec s :=
  ⟨rfl, rfl⟩

/-- C4: each `splitmix64::operator()` call first increments the state by
`0x9e3779b97f4a7c15` and then returns the spec's XOR-shift/multiply mixing
sequence, all modulo `2^64`; it is a total function, defined on every state
value including zero. -/
theorem c4_splitmix (x : Nat) : splitmix64Next x = splitmixSpec x :=
  rfl

/-! ## Claim C7: the all-zero state is a degenerate fixed point -/

theorem step_zeroState : step zeroState = zeroState := by decide

theorem stepIter_zeroState (n : Nat) : stepIter n zeroState = zeroState := by
  induction n with
  | zero => rfl
  | succ n ih => simpa [stepIter, step_zeroState] using ih

/-- C7: the all-zero state is a fixed point of the transition: from it, every
raw output call of either variant returns `0` and leaves the state all-zero,
so the entire output stream of both variants is constantly zero. -/
theorem c7_zero_fixed_point :
    ssNext zeroState = (0, zeroState) ∧ pNext zeroState = (0, zeroState) ∧
      ∀ n, stepIter n zeroState = zeroState ∧
        (ssNext (stepIter n zeroState)).1 = 0 ∧
        (pNext (stepIter n zeroState)).1 = 0 := by
  refine ⟨by decide, by decide, fun n => ?_⟩
  rw [stepIter_zeroState]
  exact ⟨rfl, by decide, by decide⟩

/-! ## Nat bit-level helper lemmas -/

theorem lor_eq_xor_of_land_zero {a b : Nat} (h : a &&& b = 0) :
    a ||| b = a ^^^ b := by
  apply Nat.eq_of_testBit_eq
  intro i
  have hb : (a &&& b).testBit i = false := by rw [h]; simp
  rw [Nat.testBit_land] at hb
  rw [Nat.testBit_lor, Nat.testBit_xor]
  cases ha : a.testBit i <;> cases hbb : b.testBit i <;> simp_all

theorem shl_mod_land_shr_eq_zero {x : Nat} (hx : x < M64) :
    ((x <<< 45) % M64) &&& (x >>> 19) = 0 := by
  apply Nat.eq_of_testBit_eq
  intro i
  simp only [Nat.testBit_land, Nat.testBit_mod_two_pow, Nat.testBit_shiftLeft,
    Nat.testBit_shiftRight, Nat.zero_testBit, M64]
  by_cases h45 : 45 ≤ i
  · have : x.testBit (19 + i) = false :=
      Nat.testBit_eq_false_of_lt (lt_of_lt_of_le hx (Nat.pow_le_pow_right (by omega) (by omega)))
    simp [this]
  · simp [h45]

/-- For a genuine 64-bit word, the two halves of `rotl x 45` are disjoint, so
the `|` in the source is a `^`. -/
theorem rotl45_eq_xor {x : Nat} (hx : x < M64) :
    rotl x 45 = ((x <<< 45) % M64) ^^^ (x >>> 19) := by
  unfold rotl
  rw [show (64 - 45) = 19 from rfl, lor_eq_xor_of_land_zero (shl_mod_land_shr_eq_zero hx)]

theorem shl_mod_xor (a b k n : Nat) :
    ((a ^^^ b) <<< k) % 2 ^ n = ((a <<< k) % 2 ^ n) ^^^ ((b <<< k) % 2 ^ n) := by
  apply Nat.eq_of_testBit_eq
  intro i
  simp only [Nat.testBit_mod_two_pow, Nat.testBit_shiftLeft, Nat.testBit_xor]
  cases h1 : decide (i < n) <;> cases h2 : decide (i ≥ k) <;> simp_all

theorem shr_xor (a b k : Nat) : (a ^^^ b) >>> k = (a >>> k) ^^^ (b >>> k) := by
  apply Nat.eq_of_testBit_eq
  intro i
  simp [Nat.testBit_shiftRight, Nat.testBit_xor]

theorem xor_mix (a b c d : Nat) : (a ^^^ b) ^^^ (c ^^^ d) = (a ^^^ c) ^^^ (b ^^^ d) := by
  apply Nat.eq_of_testBit_eq
  intro i
  simp [Nat.testBit_xor, Bool.xor_assoc, Bool.xor_comm, Bool.xor_left_comm]

theorem rotl45_xor {a b : Nat} (ha : a < M64) (hb : b < M64) :
    rotl (a ^^^ b) 45 = rotl a 45 ^^^ rotl b 45 := by
  rw [rotl45_eq_xor (by exact Nat.xor_lt_two_pow ha hb), rotl45_eq_xor ha, rotl45_eq_xor hb]
  rw [show M64 = 2 ^ 64 from rfl, shl_mod_xor, shr_xor, xor_mix]

theorem rotl45_lt {x : Nat} (hx : x < M64) : rotl x 45 < M64 := by
  unfold rotl
  exact Nat.or_lt_two_pow (Nat.mod_lt _ (by decide))
    (lt_of_le_of_lt (by rw [Nat.shiftRight_eq_div_pow]; exact Nat.div_le_self _ _) hx)

theorem lor_eq_zero {a b : Nat} (h : a ||| b = 0) : a = 0 ∧ b = 0 := by
  have hb : ∀ i, a.testBit i = false ∧ b.testBit i = false := by
    intro i
    have := congrArg (fun n => Nat.testBit n i) h
    simpa [Nat.testBit_lor] using this
  constructor <;> apply Nat.eq_of_testBit_eq <;> intro i <;>
    simp [(hb i).1, (hb i).2]

theorem rotl45_eq_zero {x : Nat} (h : rotl x 45 = 0) : x = 0 := by
  unfold rotl at h
  obtain ⟨hl, hr⟩ := lor_eq_zero h
  rw [Nat.shiftRight_eq_div_pow] at hr
  have hx19 : x < 2 ^ 19 := by
    by_contra hc
    have := Nat.div_eq_zero_iff (by norm_num : 0 < 2 ^ 19) |>.mp hr
    omega
  rw [Nat.shiftLeft_eq_mul_pow] at hl
  have hsmall : x * 2 ^ 45 < M64 := by
    have h1 : x * 2 ^ 45 < 2 ^ 19 * 2 ^ 45 :=
      Nat.mul_lt_mul_of_lt_of_le hx19 (Nat.le_refl _) (by norm_num)
    calc x * 2 ^ 45 < 2 ^ 19 * 2 ^ 45 := h1
      _ = M64 := by norm_num [M64]
  rw [Nat.mod_eq_of_lt hsmall] at hl
  rcases Nat.mul_eq_zero.mp hl with h | h
  · exact h
  · norm_num at h

/-! ## State XOR algebra -/

theorem xorState_comm (a b : State) : xorState a b = xorState b a := by
  simp [xorState, Nat.xor_comm]

theorem xorState_assoc (a b c : State) :
    xorState (xorState a b) c = xorState a (xorState b c) := by
  simp [xorState, Nat.xor_assoc]

theorem xorState_self (a : State) : xorState a a = zeroState := by
  simp [xorState, zeroState]

theorem zeroState_xor (a : State) : xorState zeroState a = a := by
  simp [xorState, zeroState]

theorem xorState_zero (a : State) : xorState a zeroState = a := by
  simp [xorState, zeroState]

theorem xorState_mix (a b c d : State) :
    xorState (xorState a b) (xorState c d) = xorState (xorState a c) (xorState b d) := by
  simp only [xorState, xor_mix]

theorem xorState_ok {a b : State} (ha : a.ok) (hb : b.ok) : (xorState a b).ok := by
  obtain ⟨h0, h1, h2, h3⟩ := ha
  obtain ⟨g0, g1, g2, g3⟩ := hb
  exact ⟨Nat.xor_lt_two_pow h0 g0, Nat.xor_lt_two_pow h1 g1,
    Nat.xor_lt_two_pow h2 g2, Nat.xor_lt_two_pow h3 g3⟩

theorem zeroState_ok : zeroState.ok := by decide

/-! ## Properties of the shared state advance -/

theorem step_ok {s : State} (h : s.ok) : (step s).ok := by
  obtain ⟨h0, h1, h2, h3⟩ := h
  refine ⟨?_, ?_, ?_, ?_⟩
  · exact Nat.xor_lt_two_pow h0 (Nat.xor_lt_two_pow h3 h1)
  · exact Nat.xor_lt_two_pow h1 (Nat.xor_lt_two_pow h2 h0)
  · exact Nat.xor_lt_two_pow (Nat.xor_lt_two_pow h2 h0) (Nat.mod_lt _ (by decide))
  · exact rotl45_lt (Nat.xor_lt_two_pow h3 h1)

theorem stepIter_ok {s : State} (n : Nat) (h : s.ok) : (stepIter n s).ok := by
  induction n generalizing s with
  | zero => exact h
  | succ n ih => exact ih (step_ok h)

/-- The state advance is linear over GF(2): it commutes with componentwise XOR
of 64-bit states. -/
theorem step_linear {x y : State} (hx : x.ok) (hy : y.ok) :
    step (xorState x y) = xorState (step x) (step y) := by
  obtain ⟨hx0, hx1, hx2, hx3⟩ := hx
  obtain ⟨hy0, hy1, hy2, hy3⟩ := hy
  unfold step xorState
  simp only [State.mk.injEq]
  refine ⟨?_, ?_, ?_, ?_⟩
  · apply Nat.eq_of_testBit_eq
    intro i
    simp [Nat.testBit_xor, Bool.xor_assoc, Bool.xor_comm, Bool.xor_left_comm]
  · apply Nat.eq_of_testBit_eq
    intro i
    simp [Nat.testBit_xor, Bool.xor_assoc, Bool.xor_comm, Bool.xor_left_comm]
  · rw [show M64 = 2 ^ 64 from rfl, shl_mod_xor]
    apply Nat.eq_of_testBit_eq
    intro i
    simp [Nat.testBit_xor, Bool.xor_assoc, Bool.xor_comm, Bool.xor_left_comm]
  · rw [xor_mix, rotl45_xor (Nat.xor_lt_two_pow hx3 hx1) (Nat.xor_lt_two_pow hy3 hy1)]

theorem step_stepIter (n : Nat) (s : State) :
    step (stepIter n s) = stepIter n (step s) := by
  induction n generalizing s with
  | zero => rfl
  | succ n ih =>
    show step (stepIter n (step s)) = stepIter n (step (step s))
    exact ih (step s)

theorem stepIter_succ' (n : Nat) (s : State) :
    stepIter (n + 1) s = step (stepIter n s) := by
  exact (step_stepIter n s).symm

theorem stepIter_add (m n : Nat) (s : State) :
    stepIter (m + n) s = stepIter n (stepIter m s) := by
  induction m generalizing s with
  | zero => rw [Nat.zero_add]; rfl
  | succ m ih =>
    rw [show m + 1 + n = (m + n) + 1 from by omega]
    show stepIter (m + n) (step s) = stepIter n (stepIter m (step s))
    exact ih (step s)

/-- The state advance maps only the all-zero state to the all-zero state. -/
theorem step_eq_zero {s : State} (h : s.ok) (hz : step s = zeroState) :
    s = zeroState := by
  obtain ⟨h0, h1, h2, h3⟩ := h
  unfold step zeroState at hz
  simp only [State.mk.injEq] at hz
  obtain ⟨e0, e1, e2, e3⟩ := hz
  have hs31 : s.s3 ^^^ s.s1 = 0 := rotl45_eq_zero e3
  have hs3 : s.s3 = s.s1 := Nat.xor_eq_zero.mp hs31
  have hs0 : s.s0 = 0 := by
    rw [hs31] at e0; simpa using e0
  have hs12 : s.s1 = s.s2 ^^^ s.s0 := by
    have := Nat.xor_eq_zero.mp e1
    exact this
  have hs2eq : s.s2 ^^^ s.s0 = (s.s1 <<< 17) % M64 := by
    exact Nat.xor_eq_zero.mp e2
  have hs1t : s.s1 = s.s1 * 2 ^ 17 % M64 := by
    conv_lhs => rw [hs12, hs2eq]
    rw [Nat.shiftLeft_eq_mul_pow]
  have hdouble : ∀ k, s.s1 = s.s1 * 2 ^ k % M64 → s.s1 = s.s1 * 2 ^ (2 * k) % M64 := by
    intro k hk
    have h2 : s.s1 = (s.s1 * 2 ^ k % M64) * 2 ^ k % M64 := by
      conv_lhs => rw [hk, hk]
    rw [Nat.mod_mul_mod, Nat.mul_assoc, ← Nat.pow_add,
      show k + k = 2 * k from by omega] at h2
    exact h2
  have step4 : s.s1 = s.s1 * 2 ^ 68 % M64 := by
    have h34 := hdouble 17 hs1t
    have h68 := hdouble 34 (by simpa using h34)
    simpa using h68
  have hs1 : s.s1 = 0 := by
    rw [show (2:Nat) ^ 68 = 2 ^ 4 * 2 ^ 64 from by norm_num, ← Nat.mul_assoc,
      show M64 = 2 ^ 64 from rfl, Nat.mul_mod_left] at step4
    exact step4
  have hs2 : s.s2 = 0 := by
    have h20 : s.s2 ^^^ s.s0 = 0 := by rw [← hs12, hs1]
    rw [hs0] at h20
    simpa using h20
  have hall : s.s0 = 0 ∧ s.s1 = 0 ∧ s.s2 = 0 ∧ s.s3 = 0 :=
    ⟨hs0, hs1, hs2, hs3.trans hs1⟩
  obtain ⟨a, b, c, d⟩ := hall
  cases s
  simp only [zeroState, State.mk.injEq]
  exact ⟨a, b, c, d⟩

/-! ## GF(2)[x] acting on states through the step map

`polyApply p v` is `p(T) v` where `T` is the state advance and the Nat `p`
encodes a polynomial over GF(2) by its coefficient bits (bit `i` is the
coefficient of `x^i`).  The jump loops compute exactly such polynomial
evaluations, and `T^(2^128)` is reachable through modular exponentiation of
`x` modulo an annihilating polynomial of `T`. -/

/-- Evaluate the GF(2) polynomial `p` at the step map, applied to `v`. -/
def polyApply (c : Nat) (v : State) : State :=
  if h : c = 0 then zeroState
  else xorState (if c % 2 = 1 then v else zeroState) (polyApply (c >>> 1) (step v))
termination_by c
decreasing_by
  rw [Nat.shiftRight_one]
  omega

/-- Fuel-bounded (structurally recursive) version of `polyApply`, used for
kernel computation. -/
def polyApplyF : Nat → Nat → State → State
  | 0, _, _ => zeroState
  | k + 1, c, v =>
    xorState (if c % 2 = 1 then v else zeroState) (polyApplyF k (c >>> 1) (step v))

theorem polyApply_zero (v : State) : polyApply 0 v = zeroState := by
  unfold polyApply
  simp

theorem polyApply_ne {c : Nat} (h : c ≠ 0) (v : State) :
    polyApply c v =
      xorState (if c % 2 = 1 then v else zeroState) (polyApply (c >>> 1) (step v)) := by
  conv_lhs => unfold polyApply
  simp [h]

theorem polyApply_one (v : State) : polyApply 1 v = v := by
  rw [polyApply_ne (by omega)]
  simp [polyApply_zero, xorState_zero]

theorem polyApplyF_eq_polyApply (k : Nat) :
    ∀ c, c < 2 ^ k → ∀ v, polyApplyF k c v = polyApply c v := by
  induction k with
  | zero =>
    intro c hc v
    have : c = 0 := by omega
    subst this
    rw [polyApply_zero]
    rfl
  | succ k ih =>
    intro c hc v
    by_cases h : c = 0
    · subst h
      show xorState (if 0 % 2 = 1 then v else zeroState)
          (polyApplyF k (0 >>> 1) (step v)) = polyApply 0 v
      rw [Nat.zero_shiftRight, ih 0 (Nat.pos_pow_of_pos k (by omega)) (step v)]
      simp [polyApply_zero, xorState_zero]
    · rw [polyApply_ne h]
      show xorState _ (polyApplyF k (c >>> 1) (step v)) = _
      rw [ih (c >>> 1) (by
        rw [Nat.shiftRight_one]
        rw [Nat.pow_succ] at hc
        omega) (step v)]

theorem polyApply_zeroState (c : Nat) : polyApply c zeroState = zeroState := by
  induction c using Nat.strong_induction_on with
  | _ c ih =>
    by_cases h : c = 0
    · subst h; exact polyApply_zero _
    · rw [polyApply_ne h, step_zeroState,
        ih (c >>> 1) (by rw [Nat.shiftRight_one]; omega)]
      simp [xorState_zero]

theorem polyApply_ok {v : State} (c : Nat) (hv : v.ok) : (polyApply c v).ok := by
  induction c using Nat.strong_induction_on generalizing v with
  | _ c ih =>
    by_cases h : c = 0
    · subst h; rw [polyApply_zero]; exact zeroState_ok
    · rw [polyApply_ne h]
      refine xorState_ok ?_ (ih (c >>> 1) (by rw [Nat.shiftRight_one]; omega) (step_ok hv))
      split
      · exact hv
      · exact zeroState_ok

/-- `polyApply` is additive in the polynomial: XOR of coefficient vectors is
polynomial addition over GF(2). -/
theorem polyApply_xor (a b : Nat) (v : State) :
    polyApply (a ^^^ b) v = xorState (polyApply a v) (polyApply b v) := by
  suffices H : ∀ n a b v, a + b ≤ n →
      polyApply (a ^^^ b) v = xorState (polyApply a v) (polyApply b v) by
    exact H (a + b) a b v (Nat.le_refl _)
  intro n
  induction n with
  | zero =>
    intro a b v hab
    have ha : a = 0 := by omega
    have hb : b = 0 := by omega
    subst ha; subst hb
    simp [polyApply_zero, xorState_zero]
  | succ n ih =>
    intro a b v hab
    by_cases ha : a = 0
    · subst ha; simp [polyApply_zero, zeroState_xor]
    by_cases hb : b = 0
    · subst hb; simp [polyApply_zero, xorState_zero]
    by_cases hab0 : a ^^^ b = 0
    · rw [hab0, polyApply_zero, Nat.xor_eq_zero.mp hab0, xorState_self]
    rw [polyApply_ne hab0, polyApply_ne ha, polyApply_ne hb]
    have hshift : (a ^^^ b) >>> 1 = (a >>> 1) ^^^ (b >>> 1) := shr_xor a b 1
    have hbit : (a ^^^ b) % 2 = (a % 2) ^^^ (b % 2) := by
      have h1 := Nat.and_xor_distrib_right (a := a) (b := b) (c := 1)
      simpa [Nat.and_one_is_mod] using h1
    have hrec : polyApply ((a >>> 1) ^^^ (b >>> 1)) (step v) =
        xorState (polyApply (a >>> 1) (step v)) (polyApply (b >>> 1) (step v)) := by
      apply ih
      rw [Nat.shiftRight_one, Nat.shiftRight_one]
      omega
    rw [hshift, hrec, hbit, xorState_mix]
    congr 1
    rcases Nat.mod_two_eq_zero_or_one a with h1 | h1 <;>
      rcases Nat.mod_two_eq_zero_or_one b with h2 | h2 <;>
        simp [h1, h2, xorState_self, xorState_zero, zeroState_xor]

theorem polyApply_shl1 (m : Nat) (v : State) :
    polyApply (m <<< 1) v = polyApply m (step v) := by
  by_cases h : m = 0
  · subst h
    rw [Nat.zero_shiftLeft, polyApply_zero, polyApply_zero]
  · have hne : m <<< 1 ≠ 0 := by
      rw [Nat.shiftLeft_eq_mul_pow]
      simp [h]
    rw [polyApply_ne hne]
    have h2 : (m <<< 1) % 2 = 0 := by
      rw [Nat.shiftLeft_eq_mul_pow]
      omega
    have h3 : (m <<< 1) >>> 1 = m := by
      rw [Nat.shiftLeft_eq_mul_pow, Nat.shiftRight_one]
      omega
    rw [h2, h3]
    simp [zeroState_xor]

theorem polyApply_shl (k : Nat) : ∀ m (v : State),
    polyApply (m <<< k) v = polyApply m (stepIter k v) := by
  induction k with
  | zero => intro m v; rfl
  | succ k ihk =>
    intro m v
    rw [show k + 1 = 1 + k from by omega, Nat.shiftLeft_add, ihk (m <<< 1) v,
      polyApply_shl1, step_stepIter]
    have harg : stepIter (1 + k) v = stepIter k (step v) := by
      rw [Nat.add_comm]
      rfl
    rw [harg]

/-- The step map commutes with every polynomial in the step map. -/
theorem polyApply_step (b : Nat) {v : State} (hv : v.ok) :
    polyApply b (step v) = step (polyApply b v) := by
  induction b using Nat.strong_induction_on generalizing v with
  | _ b ih =>
    by_cases h : b = 0
    · subst h
      rw [polyApply_zero, polyApply_zero, step_zeroState]
    · rw [polyApply_ne h, polyApply_ne h (v := v)]
      rw [ih (b >>> 1) (by rw [Nat.shiftRight_one]; omega) (step_ok hv)]
      rw [step_linear (x := if b % 2 = 1 then v else zeroState)
        (y := polyApply (b >>> 1) (step v))
        (by split; exact hv; exact zeroState_ok)
        (polyApply_ok _ (step_ok hv))]
      congr 1
      split
      · rfl
      · exact step_zeroState.symm

/-- `polyApply` is linear in the state argument. -/
theorem polyApply_linear (p : Nat) {x y : State} (hx : x.ok) (hy : y.ok) :
    polyApply p (xorState x y) = xorState (polyApply p x) (polyApply p y) := by
  induction p using Nat.strong_induction_on generalizing x y with
  | _ p ih =>
    by_cases h : p = 0
    · subst h
      rw [polyApply_zero, polyApply_zero, polyApply_zero, xorState_zero]
    · rw [polyApply_ne h, polyApply_ne h (v := x), polyApply_ne h (v := y)]
      rw [step_linear hx hy,
        ih (p >>> 1) (by rw [Nat.shiftRight_one]; omega) (step_ok hx) (step_ok hy),
        xorState_mix]
      congr 1
      split
      · rfl
      · exact (xorState_zero zeroState).symm

/-! ## Squaring and reduction in GF(2)[x] modulo an annihilating polynomial -/

/-- Squaring a GF(2) polynomial spreads its coefficient bits to even
positions (cross terms cancel in characteristic 2). -/
def sqF : Nat → Nat → Nat
  | 0, _ => 0
  | k + 1, r => (r % 2) ^^^ ((sqF k (r >>> 1)) <<< 2)

/-- An annihilating polynomial of the xoshiro256 state advance: the degree-256
characteristic polynomial of the transition, encoded by coefficient bits. -/
def qConst : Nat :=
  0x10003c03c3f3ecb1904b4edcf26259f850280002bcefd1a5e9d116f2bb0f0f001

/-- One reduction step: clear bit `256 + t` by XOR-ing in `q <<< t`. -/
def redStep (q t a : Nat) : Nat :=
  if a.testBit (256 + t) then a ^^^ (q <<< t) else a

/-- Clear bits `256 + t - 1` down to `256`, from the top. -/
def redLoop (q : Nat) : Nat → Nat → Nat
  | 0, a => a
  | t + 1, a => redLoop q t (redStep q t a)

/-- Square a polynomial of degree < 256 and reduce it modulo `q`. -/
def sqMod (q r : Nat) : Nat := redLoop q 256 (sqF 256 r)

/-- `x^(2^k) mod qConst`, by repeated modular squaring. -/
def powIter : Nat → Nat
  | 0 => 2
  | k + 1 => sqMod qConst (powIter k)

theorem sqF_zero (k : Nat) : sqF k 0 = 0 := by
  induction k with
  | zero => rfl
  | succ k ih =>
    show (0 % 2) ^^^ ((sqF k (0 >>> 1)) <<< 2) = 0
    rw [Nat.zero_shiftRight, ih]
    simp

theorem sqF_lt (k : Nat) : ∀ r, sqF k r < 2 ^ (2 * k) := by
  induction k with
  | zero => intro r; show (0:Nat) < 2 ^ (2 * 0); decide
  | succ k ih =>
    intro r
    have h1 : sqF k (r >>> 1) <<< 2 < 2 ^ (2 * (k + 1)) := by
      rw [Nat.shiftLeft_eq_mul_pow, show 2 * (k + 1) = 2 * k + 2 from by omega,
        Nat.pow_add]
      have := ih (r >>> 1)
      have hp : (0:Nat) < 2 ^ (2 * k) := Nat.pos_pow_of_pos _ (by omega)
      omega
    have h2 : r % 2 < 2 ^ (2 * (k + 1)) := by
      have hp : (2:Nat) ≤ 2 ^ (2 * (k + 1)) :=
        calc (2:Nat) = 2 ^ 1 := by norm_num
        _ ≤ 2 ^ (2 * (k + 1)) := Nat.pow_le_pow_right (by omega) (by omega)
      omega
    exact Nat.xor_lt_two_pow h2 h1

theorem lt_two_pow_of_testBit_false {a n : Nat} (ha : a < 2 ^ (n + 1))
    (hb : a.testBit n = false) : a < 2 ^ n := by
  by_contra hc
  push_neg at hc
  have hdiv : a / 2 ^ n = 1 := by
    refine Nat.div_eq_of_lt_le (by omega) ?_
    rw [Nat.pow_succ] at ha
    omega
  rw [Nat.testBit_to_div_mod, hdiv] at hb
  simp at hb

theorem redLoop_lt {q : Nat} (hq : q < 2 ^ 257) (hq256 : q.testBit 256 = true) :
    ∀ t a, a < 2 ^ (256 + t) → redLoop q t a < 2 ^ 256 := by
  intro t
  induction t with
  | zero => intro a ha; simpa using ha
  | succ t ih =>
    intro a ha
    show redLoop q t (redStep q t a) < 2 ^ 256
    apply ih
    unfold redStep
    split
    · rename_i hbit
      have hsh : q <<< t < 2 ^ (257 + t) := by
        rw [Nat.shiftLeft_eq_mul_pow, Nat.pow_add]
        exact Nat.mul_lt_mul_of_lt_of_le hq (Nat.le_refl _) (Nat.pos_pow_of_pos _ (by omega))
      have hax : a ^^^ (q <<< t) < 2 ^ ((256 + t) + 1) := by
        have h1 : a < 2 ^ ((256 + t) + 1) := by
          rw [show (256 + t) + 1 = 256 + (t + 1) from by omega]
          exact ha
        have h2 : q <<< t < 2 ^ ((256 + t) + 1) := by
          rw [show (256 + t) + 1 = 257 + t from by omega]
          exact hsh
        exact Nat.xor_lt_two_pow h1 h2
      have htop : (a ^^^ (q <<< t)).testBit (256 + t) = false := by
        rw [Nat.testBit_xor, hbit, Nat.testBit_shiftLeft]
        have : 256 + t - t = 256 := by omega
        simp [this, hq256]
      exact lt_two_pow_of_testBit_false hax htop
    · rename_i hbit
      have ha' : a < 2 ^ ((256 + t) + 1) := by
        rw [show (256 + t) + 1 = 256 + (t + 1) from by omega]
        exact ha
      exact lt_two_pow_of_testBit_false ha' (by simpa using hbit)

theorem qConst_lt : qConst < 2 ^ 257 := by decide

theorem qConst_topBit : qConst.testBit 256 = true := by decide

theorem sqMod_lt (r : Nat) : sqMod qConst r < 2 ^ 256 := by
  unfold sqMod
  apply redLoop_lt qConst_lt qConst_topBit
  have := sqF_lt 256 r
  simpa using this

theorem powIter_lt (k : Nat) : powIter k < 2 ^ 256 := by
  cases k with
  | zero => decide
  | succ k => exact sqMod_lt (powIter k)

/-- Evaluating the spread square of `r` equals applying `r` twice. -/
theorem polyApply_sqF (k : Nat) : ∀ r, r < 2 ^ k → ∀ v : State, v.ok →
    polyApply (sqF k r) v = polyApply r (polyApply r v) := by
  induction k with
  | zero =>
    intro r hr v _
    have h0 : r = 0 := by omega
    subst h0
    show polyApply 0 v = polyApply 0 (polyApply 0 v)
    simp [polyApply_zero]
  | succ k ih =>
    intro r hr v hv
    by_cases h0 : r = 0
    · subst h0
      simp [sqF_zero, polyApply_zero, polyApply_zeroState]
    have hr' : r >>> 1 < 2 ^ k := by
      rw [Nat.shiftRight_one]
      rw [Nat.pow_succ] at hr
      omega
    show polyApply ((r % 2) ^^^ ((sqF k (r >>> 1)) <<< 2)) v = _
    rw [polyApply_xor, polyApply_shl,
      ih (r >>> 1) hr' (stepIter 2 v) (stepIter_ok 2 hv)]
    have hA : polyApply (r >>> 1) (stepIter 2 v) =
        step (polyApply (r >>> 1) (step v)) := by
      show polyApply (r >>> 1) (step (step v)) = _
      exact polyApply_step (r >>> 1) (step_ok hv)
    rw [hA]
    rw [polyApply_ne h0 (v := v)]
    rw [polyApply_ne h0
      (v := xorState (if r % 2 = 1 then v else zeroState) (polyApply (r >>> 1) (step v)))]
    have hifok : (if r % 2 = 1 then v else zeroState).ok := by
      split
      · exact hv
      · exact zeroState_ok
    have hAok : (polyApply (r >>> 1) (step v)).ok := polyApply_ok _ (step_ok hv)
    rw [step_linear hifok hAok,
      polyApply_linear (r >>> 1) (step_ok hifok) (step_ok hAok)]
    rcases Nat.mod_two_eq_zero_or_one r with hpar | hpar
    · have hPf : ∀ w : State, (if r % 2 = 1 then w else zeroState) = zeroState :=
        fun w => if_neg (by omega)
      simp only [hPf]
      rw [hpar, polyApply_zero]
      simp only [step_zeroState, polyApply_zeroState, zeroState_xor]
    · have hPt : ∀ w : State, (if r % 2 = 1 then w else zeroState) = w :=
        fun w => if_pos hpar
      simp only [hPt]
      rw [hpar, polyApply_one]
      rw [xorState_comm v (polyApply (r >>> 1) (step v)), xorState_mix,
        xorState_self, zeroState_xor]

/-! ## The annihilating polynomial, verified on basis states and extended by
linearity to all 64-bit states -/

/-- The state whose word `j` is `w` and whose other words are zero. -/
def wordState (j w : Nat) : State :=
  ⟨if j = 0 then w else 0, if j = 1 then w else 0, if j = 2 then w else 0,
    if j = 3 then w else 0⟩

set_option maxRecDepth 60000 in
set_option maxHeartbeats 4000000 in
theorem qConst_basis :
    ∀ j < 4, ∀ i < 64, polyApplyF 257 qConst (wordState j (2 ^ i)) = zeroState := by
  decide

theorem polyApplyF_zeroState (k : Nat) : ∀ c, polyApplyF k c zeroState = zeroState := by
  induction k with
  | zero => intro c; rfl
  | succ k ih =>
    intro c
    show xorState _ (polyApplyF k (c >>> 1) (step zeroState)) = _
    rw [step_zeroState, ih]
    simp [xorState_zero]

theorem wordState_zero (j : Nat) : wordState j 0 = zeroState := by
  simp [wordState, zeroState]

theorem wordState_xor (j a b : Nat) :
    wordState j (a ^^^ b) = xorState (wordState j a) (wordState j b) := by
  by_cases h0 : j = 0 <;> by_cases h1 : j = 1 <;> by_cases h2 : j = 2 <;>
    by_cases h3 : j = 3 <;> simp [wordState, xorState, h0, h1, h2, h3]

theorem wordState_ok {w : Nat} (j : Nat) (hw : w < M64) : (wordState j w).ok := by
  unfold wordState State.ok
  refine ⟨?_, ?_, ?_, ?_⟩ <;> (dsimp only; split)
  · exact hw
  · decide
  · exact hw
  · decide
  · exact hw
  · decide
  · exact hw
  · decide

theorem state_decomp (s : State) :
    s = xorState (wordState 0 s.s0) (xorState (wordState 1 s.s1)
      (xorState (wordState 2 s.s2) (wordState 3 s.s3))) := by
  cases s
  simp [wordState, xorState]

theorem testBit_log2 {w : Nat} (hw : w ≠ 0) : w.testBit w.log2 = true := by
  have h1 : 2 ^ w.log2 ≤ w := Nat.log2_self_le hw
  have h2 : w < 2 ^ (w.log2 + 1) := Nat.lt_log2_self
  have hdiv : w / 2 ^ w.log2 = 1 := by
    refine Nat.div_eq_of_lt_le (by omega) ?_
    rw [Nat.pow_succ] at h2
    omega
  rw [Nat.testBit_to_div_mod, hdiv]
  decide

theorem xor_top_lt {w : Nat} (hw : w ≠ 0) : w ^^^ 2 ^ w.log2 < 2 ^ w.log2 := by
  have hbits : ∀ n, w.log2 ≤ n → (w ^^^ 2 ^ w.log2).testBit n = false := by
    intro n hn
    rw [Nat.testBit_xor]
    rcases Nat.eq_or_lt_of_le hn with h | h
    · rw [← h, testBit_log2 hw, Nat.testBit_two_pow]
      simp
    · have hw2 : w < 2 ^ n :=
        lt_of_lt_of_le Nat.lt_log2_self (Nat.pow_le_pow_right (by omega) (by omega))
      rw [Nat.testBit_eq_false_of_lt hw2, Nat.testBit_two_pow]
      simp [Nat.ne_of_lt h]
  have heq : w ^^^ 2 ^ w.log2 = (w ^^^ 2 ^ w.log2) % 2 ^ w.log2 := by
    apply Nat.eq_of_testBit_eq
    intro n
    rw [Nat.testBit_mod_two_pow]
    by_cases hn : n < w.log2
    · simp [hn]
    · push_neg at hn
      rw [hbits n hn]
      simp
  rw [heq]
  exact Nat.mod_lt _ (Nat.pos_pow_of_pos _ (by omega))

theorem top_xor_decomp {w : Nat} (hw : w ≠ 0) :
    w = 2 ^ w.log2 ^^^ (w ^^^ 2 ^ w.log2) := by
  rw [Nat.xor_comm w (2 ^ w.log2), ← Nat.xor_assoc, Nat.xor_self, Nat.zero_xor]

theorem annih_word
    (hbasis : ∀ j < 4, ∀ i < 64, polyApply qConst (wordState j (2 ^ i)) = zeroState) :
    ∀ w, w < M64 → ∀ j, j < 4 → polyApply qConst (wordState j w) = zeroState := by
  intro w
  induction w using Nat.strong_induction_on with
  | _ w ih =>
    intro hw j hj
    by_cases h0 : w = 0
    · subst h0
      rw [wordState_zero, polyApply_zeroState]
    · have hi : w.log2 < 64 := by
        have := (Nat.log2_lt h0).mpr hw
        simpa [M64] using (Nat.log2_lt h0).mpr hw
      have hr : w ^^^ 2 ^ w.log2 < 2 ^ w.log2 := xor_top_lt h0
      have h2le : 2 ^ w.log2 ≤ w := Nat.log2_self_le h0
      have hrw : w ^^^ 2 ^ w.log2 < w := lt_of_lt_of_le hr h2le
      have hpow_lt : (2:Nat) ^ w.log2 < M64 := by
        show (2:Nat) ^ w.log2 < 2 ^ 64
        exact Nat.pow_lt_pow_right (by omega) hi
      conv_lhs => rw [top_xor_decomp h0]
      rw [wordState_xor,
        polyApply_linear qConst (wordState_ok j hpow_lt)
          (wordState_ok j (lt_trans hr hpow_lt)),
        hbasis j hj w.log2 hi,
        ih (w ^^^ 2 ^ w.log2) hrw (lt_trans hr hpow_lt) j hj, zeroState_xor]

/-- The certified polynomial `qConst` annihilates the step map on every
64-bit state. -/
theorem qConst_annihilates : ∀ v : State, v.ok → polyApply qConst v = zeroState := by
  intro v hv
  obtain ⟨h0, h1, h2, h3⟩ := hv
  have hbasis : ∀ j < 4, ∀ i < 64, polyApply qConst (wordState j (2 ^ i)) = zeroState := by
    intro j hj i hi
    rw [← polyApplyF_eq_polyApply 257 qConst qConst_lt (wordState j (2 ^ i))]
    exact qConst_basis j hj i hi
  have hword := annih_word hbasis
  have w0 := wordState_ok 0 h0
  have w1 := wordState_ok 1 h1
  have w2 := wordState_ok 2 h2
  have w3 := wordState_ok 3 h3
  conv_lhs => rw [state_decomp v]
  rw [polyApply_linear qConst w0 (xorState_ok w1 (xorState_ok w2 w3)),
    polyApply_linear qConst w1 (xorState_ok w2 w3),
    polyApply_linear qConst w2 w3,
    hword v.s0 h0 0 (by omega), hword v.s1 h1 1 (by omega),
    hword v.s2 h2 2 (by omega), hword v.s3 h3 3 (by omega), zeroState_xor,
    zeroState_xor, zeroState_xor]

/-! ## Verified modular exponentiation certificates

Each entry `((r, c), r')` certifies one GF(2) modular squaring:
`r^2 = c * qConst + r'` in GF(2)[x], i.e. `sqF 256 r = mulF 257 c qConst ^^^ r'`,
with `r < 2^256`.  Chaining 128 entries from the polynomial `x` (encoded `2`)
certifies `x^(2^128) mod qConst = jumpMask`; 64 further entries certify
`x^(2^192) mod qConst = longJumpMask`. -/

/-- Carry-less (GF(2)) multiplication, structurally recursive on `k` fuel over
the bits of the first factor. -/
def mulF : Nat → Nat → Nat → Nat
  | 0, _, _ => 0
  | k + 1, a, b => (if a % 2 = 1 then b else 0) ^^^ ((mulF k (a >>> 1) b) <<< 1)

def certList128 : List ((Nat × Nat) × Nat) := [
  ((0x2, 0x0), 0x4),
  ((0x4, 0x0), 0x10),
  ((0x10, 0x0), 0x100),
  ((0x100, 0x0), 0x10000),
  ((0x10000, 0x0), 0x100000000),
  ((0x100000000, 0x0), 0x10000000000000000),
  ((0x10000000000000000, 0x0), 0x100000000000000000000000000000000),
  ((0x100000000000000000000000000000000, 0x1), 0x3c03c3f3ecb1904b4edcf26259f850280002bcefd1a5e9d116f2bb0f0f001),
  ((0x3c03c3f3ecb1904b4edcf26259f850280002bcefd1a5e9d116f2bb0f0f001, 0x5500c0981179f8c3d51aef664a89297c113a36ce90eb869f2e60b3488), 0xbe7976372e9304356dd49b656055c9da81f675e7a4ef7d84c7327d130e34b489),
  ((0xbe7976372e9304356dd49b656055c9da81f675e7a4ef7d84c7327d130e34b489, 0x4554e94caf137b9e4ee43cf133e581820994ab4bbcc0e558101dfa05ca0ac069), 0x65507439cf43f0e28456faeb6230d9841be1d76854ddda93060106bbbe4ff028),
  ((0x65507439cf43f0e28456faeb6230d9841be1d76854ddda93060106bbbe4ff028, 0x1411223c9a33e11f015ccb906e8a6d8ba54df17776ad953a1a983e3e57d28180), 0x51edef31819e01ff3c8ca36ec9a74fa715fe822628b16f04876c2301125a85c0),
  ((0x51edef31819e01ff3c8ca36ec9a74fa715fe822628b16f04876c2301125a85c0, 0x11016b91f832526275c230afc09680f29f41edcf03d55d4f3637bb6279e8eb85), 0xf41cce3698fad39aa6eb691cbf9ce10d638d47ec5bcf595d7f4e8da7e228b85),
  ((0xf41cce3698fad39aa6eb691cbf9ce10d638d47ec5bcf595d7f4e8da7e228b85, 0x5510c1a141226b13d4dcaba706e6fd4e9264ab88135dbaecf91a162dfc7665), 0xda66e09e52b341d132104b94fe2534d3b1df898a4a6f1548669da12373880674),
  ((0xda66e09e52b341d132104b94fe2534d3b1df898a4a6f1548669da12373880674, 0x5144db269dde2c53d3c1432f7107ff0a528d42cdc260f59f4f1b33969852e721), 0x3cec2c375bef249c023ecbee3f717fce3886af219b8852484f20eb915e780231),
  ((0x3cec2c375bef249c023ecbee3f717fce3886af219b8852484f20eb915e780231, 0x550585c168fe9c3ea0794dcf38bcacfc2fce03db2d03121ad2be0e07930398d), 0x1a9dcf944ae47603a69393ac0d837e54c3ce2f061f077568449b3ae793888c8c),
  ((0x1a9dcf944ae47603a69393ac0d837e54c3ce2f061f077568449b3ae793888c8c, 0x144426e94856033052505e3ecdee122f8b40de4ad68cd3a70de5dd1e4ee6297), 0xd87f8ce230817a21ef43beaa06f02fb892ae7ca370c0bf6b7e89ac5ca2fbf2c7),
  ((0xd87f8ce230817a21ef43beaa06f02fb892ae7ca370c0bf6b7e89ac5ca2fbf2c7, 0x5140da688a58410a12685a57fafa05c3836de8f8521419768bf2c420775fdf9f), 0xbd53027696368bbbf0c168649cdba61f54adade3697d477f6c4adbe18e29df8a),
  ((0xbd53027696368bbbf0c168649cdba61f54adade3697d477f6c4adbe18e29df8a, 0x4551ed047520639b0d9b6777dbfb13d0ea033dd137c6423df45fce80e76a36fc), 0xf78a97c0d882cd371ea49b5067452594f2c602feb5ed002b1a673fecf40e36b8),
  ((0xf78a97c0d882cd371ea49b5067452594f2c602feb5ed002b1a673fecf40e36b8, 0x551580b96342b31e60a7cdac9d529658e3d2ed15e80f3be747865b24bd94d907), 0x1639a36e0968e3c5590923d02ec52531770323eab8d437bdef4606da56224c47),
  ((0x1639a36e0968e3c5590923d02ec52531770323eab8d437bdef4606da56224c47, 0x11406b2722a84c2ac950b38541208548cd612c5c46d3af113f08be1c21963d8), 0x8b3919a9d298a4152f679f694a74c76a7cde241817a3ce0f31d9d05c5d95f3cd),
  ((0x8b3919a9d298a4152f679f694a74c76a7cde241817a3ce0f31d9d05c5d95f3cd, 0x4045f5b39839fa2c6988be313f6bc5174f1558022e80e1ada67e57c0bfddc42b), 0x624eb7b63c322e71d9b36372fd70ec83eace6d3840b79fef6b6622ae9590047a),
  ((0x624eb7b63c322e71d9b36372fd70ec83eace6d3840b79fef6b6622ae9590047a, 0x140423580a7f79d9f998b73da9536a610d4ac7f765b2b9811b80a5178cfd5b67), 0x2bac5517c9469796cebbfd2ef4e9aff4eb2c7e29d3c33d2e1b91fd9ba98d9e23),
  ((0x2bac5517c9469796cebbfd2ef4e9aff4eb2c7e29d3c33d2e1b91fd9ba98d9e23, 0x4454bacc5e85917750277e040ba8cb33077a0f6b3856a7f1cb2758b081fa50c), 0xfb678bd3e5dac186657a6b736317866bba0ffb6562a3a28a01f356e6083fe109),
  ((0xfb678bd3e5dac186657a6b736317866bba0ffb6562a3a28a01f356e6083fe109, 0x5545d424ac1d6bfcda3674c90ea0b3b0cf727f9bd972d08c9ee5e385bd57d7a9), 0xf5c010059e83bc3ff3469dbb4fe25d26e46916a1426b676dc5461100f197a7e8),
  ((0xf5c010059e83bc3ff3469dbb4fe25d26e46916a1426b676dc5461100f197a7e8, 0x551190f21f4e37b772350e854f51dc83f66466e7168e4818babb7fe187544d9c), 0xe677849e207f6afd5de3e273dc7b84dc3eec4eb6495ce5aa22dc028cb8c259dc),
  ((0xe677849e207f6afd5de3e273dc7b84dc3eec4eb6495ce5aa22dc028cb8c259dc, 0x5414d62b5b13206e9c3613bf5be0db773e20789070a95ea596d6c3ada0ba3a5f), 0xd19a1bdceb7522cdf2332a778d9c8dc114e10c3b7c36788832d418900fd3b0f),
  ((0xd19a1bdceb7522cdf2332a778d9c8dc114e10c3b7c36788832d418900fd3b0f, 0x51018e8ac61dff0e41c06462e9b5b689fe1dfd8291797c728cf58c9dd99102), 0xf38f7e750d5f4f2a98273f4d18ad073e8b3ed7c37e947e38e2d0c9c10e8d7157),
  ((0xf38f7e750d5f4f2a98273f4d18ad073e8b3ed7c37e947e38e2d0c9c10e8d7157, 0x5505809434aa05729e393a174f49670773facbee11006cac573ee74c1d012c65), 0xafa9e3fe5fea15c36d48dd206d56754d34f30137eadb90b9e7109518f3510d70),
  ((0xafa9e3fe5fea15c36d48dd206d56754d34f30137eadb90b9e7109518f3510d70, 0x4455bb8fd899718ec2d121f616876e2f34be4b84dd9208f1633a21e382bbfa39), 0x1ca234ff511bcb05c76a456d998ddc4cd7c26ebd51ecf6c48ee774f507ec9f39),
  ((0x1ca234ff511bcb05c76a456d998ddc4cd7c26ebd51ecf6c48ee774f507ec9f39, 0x1504708ceb3ea62deb85575ccbb06abe06b46d17992821babcb102d5f0c12fd), 0x3e667662caa54d16e0e9fa345826626d352f8b5d2137de834905d8261158a7bc),
  ((0x3e667662caa54d16e0e9fa345826626d352f8b5d2137de834905d8261158a7bc, 0x5541817f7df2e57ff6591f597dc9dc80a861961ebeb5c45799d85279d24dc42), 0xa43d37468704d53682b9aa358fe2ed58e1185a166bb38173272a32be4bac7912),
  ((0xa43d37468704d53682b9aa358fe2ed58e1185a166bb38173272a32be4bac7912, 0x4410fa63b4fc854387dd4ebc95fba68e5e39aa296766afd26aa4bfa80d669e6d), 0xe055d3520fdb9d7214fafc0fbdbc2087d8d0632bd08e6ac58120d583c112f69),
  ((0xe055d3520fdb9d7214fafc0fbdbc2087d8d0632bd08e6ac58120d583c112f69, 0x5400d21c467ae5736c54b294fbe5d3e9d3b0cc8c7fbff9a931f4f3a4ceef3c), 0xa1b7ebf581a90f09ffed2ffbcf857b425d33a22177777716d9eb3e225a9ebb7d),
  ((0xa1b7ebf581a90f09ffed2ffbcf857b425d33a22177777716d9eb3e225a9ebb7d, 0x4401ba18d6f2c62ba95255ff1028b0008e5a9081ff93c8c46f053d1e425524a5), 0xafe97309a7881b0a59f09ab33f1c8f40c2e65cfa3a44f3b3a433a5cff8501f4),
  ((0xafe97309a7881b0a59f09ab33f1c8f40c2e65cfa3a44f3b3a433a5cff8501f4, 0x4455ab8fa59a41a619e6243f553cac4b2c8d78ee47e7bfbf342391dcf4697a), 0xc1cdf918a717c89794295f82142a68bd53a34398808ef457635e9c6882ce5c6a),
  ((0xc1cdf918a717c89794295f82142a68bd53a34398808ef457635e9c6882ce5c6a, 0x50019c5f9485320813eaba77978d806a03426f75f4c21cff9e8e269996c93a90), 0xac7fe0806aecd6c863d3f9df102dfa7e306c4d371040af1e1a2c804af78e2ed4),
  ((0xac7fe0806aecd6c863d3f9df102dfa7e306c4d371040af1e1a2c804af78e2ed4, 0x4450ea97d7be400c1e4ed8601aa11e658826f4268bf1549cab6f4a1ce9909f8b), 0x702cf168260fa29e976589eefbb1c7f57823a1cd9453899b7743a154e17a5e9b),
  ((0x702cf168260fa29e976589eefbb1c7f57823a1cd9453899b7743a154e17a5e9b, 0x1500349310ede91e6bc9a7377f9ff14958ace514cf12edbadd6e174a8ed89e7a), 0xc4671ec91b902bae03803bdb9ea7d7e868ef5242f2d9c5b22edfce1b0667bf3f),
  ((0xc4671ec91b902bae03803bdb9ea7d7e868ef5242f2d9c5b22edfce1b0667bf3f, 0x5010d824fcce8ce49273ac26f18d79aca5fa8cf5a58442e4f61eac571147fd5a), 0x755b16e231d1e7c9af03bea7ea7109fd0af3e6140fcff1854d2c07a0b0f7980f),
  ((0x755b16e231d1e7c9af03bea7ea7109fd0af3e6140fcff1854d2c07a0b0f7980f, 0x151121b9b7a47f136fc96e38bda9db8581d92f8cfeffaf989ca4add23bd21ef5), 0x51fc9b8eb1974e73eece73d85df1836113a31dc36460a3b0d24b31ab16542ea0),
  ((0x51fc9b8eb1974e73eece73d85df1836113a31dc36460a3b0d24b31ab16542ea0, 0x11016a90eee1de9e988a0a66c14ee1e938de85592503fa264345adb79559fe91), 0xfb43cf1f4658ae1bde49d57f23fdecb5a374bf9822d660aaec9c79ebd62a4a91),
  ((0xfb43cf1f4658ae1bde49d57f23fdecb5a374bf9822d660aaec9c79ebd62a4a91, 0x5545d034b331e1b9ffb19df500c96a739c3809d0122a84c53f6a4ba7fa3c2d09), 0x9b48db8907d00f973aa3d49368a9c56248b8b0570f008a917602414a37bf1c08),
  ((0x9b48db8907d00f973aa3d49368a9c56248b8b0570f008a917602414a37bf1c08, 0x4145e372c1928af5d88334efe51564d2ce3c0a488fa132bceb92b9debceb1315), 0x8ec1a9dd27957370a6994477ec2d6d859e11e129fcced20ef7569be74f972355),
  ((0x8ec1a9dd27957370a6994477ec2d6d859e11e129fcced20ef7569be74f972355, 0x4054a0ccdeab905bc99784743a22d6b3b66f5ce065a7728fea6eeb39ca3a09b1), 0xba8b1a7be4521854f6c987b8eb4f76db82f1f8d3ebd9baffc223943200d6e8a0),
  ((0xba8b1a7be4521854f6c987b8eb4f76db82f1f8d3ebd9baffc223943200d6e8a0, 0x4544bc747817ba24ace0a6f2fb7be470dc201c69e59ace39db498abd4c26894f), 0xa8f7de3ed772d2d2bad2e3487a438d37f6faaff592dc08c7e226bff99e7f9d4f),
  ((0xa8f7de3ed772d2d2bad2e3487a438d37f6faaff592dc08c7e226bff99e7f9d4f, 0x4440aaeb2182afe0237e05e51957bbcafa4e40777990c64f039197136a05e7a4), 0x3c63f6f95954e65e181d6c749bfc7e7bb006241469247fbd6322f95d362137f1),
  ((0x3c63f6f95954e65e181d6c749bfc7e7bb006241469247fbd6322f95d362137f1, 0x5501809b705e07880e08c008e9b78931e8c135fc923df372794b867650e5e5e), 0x81f450881b8436920df6566ff12f17f469811136f33b48faaa878816402dab5f),
  ((0x81f450881b8436920df6566ff12f17f469811136f33b48faaa878816402dab5f, 0x4001a51d4a04b26d0e1e972141da3471ef05489bed6509733889afa1c6a216a4), 0x5f728be2c97e9066474579292f705634f825539dee5e4763f11fb4faea62c7f1),
  ((0x5f728be2c97e9066474579292f705634f825539dee5e4763f11fb4faea62c7f1, 0x11552a0712041cbd317e17b8dfffa80c633836f3fa5c0fdc9ae23d83c255170f), 0x5ff98760441a364cec104b9942b386be36d6c9bc4bcb56f5f18ac1f5eac5120e),
  ((0x5ff98760441a364cec104b9942b386be36d6c9bc4bcb56f5f18ac1f5eac5120e, 0x11556a42e2a6c93e230cfdeaf0263224ae36a0513be3223c2cc34a93d23b16fb), 0xb01e1ff4eb0b05f6d1c440c801f3cddf168b84ac131ea85612b825906ddc86af),
  ((0xb01e1ff4eb0b05f6d1c440c801f3cddf168b84ac131ea85612b825906ddc86af, 0x4500fd9a85492b392dca4c059605617da93a52c047d0bbc6fec91607e1f0afb6), 0x140bd5e4e00ffdaaf1ab1bce1577ad4eb5bb35fe03c3158a5696a9ed59ffcbe3),
  ((0x140bd5e4e00ffdaaf1ab1bce1577ad4eb5bb35fe03c3158a5696a9ed59ffcbe3, 0x11003b96b14948b0e15ad355747df018c9f04578dad62d009e51d81c075e4ff), 0x5177664e86d5e31b49c2df736ebe9c688eadd052a304405f61507225f9f0e0fa),
  ((0x5177664e86d5e31b49c2df736ebe9c688eadd052a304405f61507225f9f0e0fa, 0x11012ad54b42dbd722658472479dc41fc9640d79f1fdb7e8cedd21914a5d9eea), 0xa93a7aadeced9cd75b8d5f58ce3357a7ca120d886e8fdf3387aac36cc0c1abae),
  ((0xa93a7aadeced9cd75b8d5f58ce3357a7ca120d886e8fdf3387aac36cc0c1abae, 0x4441fab969697e2e66a6b9bd1017121dc2696580983b50fdcf9c54e1ff2f30cd), 0xd5372758d87157efa6f4a2ea423cc2f62b95939579346af1d4eb47064a9ac499),
  ((0xd5372758d87157efa6f4a2ea423cc2f62b95939579346af1d4eb47064a9ac499, 0x5111cae73f1a33ba676aed9d555ed6d79cfdb2dc86b51687b57a559af2c34a82), 0x7e0b8abe53e950f8b86994c9cb3059a556df3905d6712eed549bf83ef12aebc3),
  ((0x7e0b8abe53e950f8b86994c9cb3059a556df3905d6712eed549bf83ef12aebc3, 0x1554304507b02d945bbbcba2b2d5a8bef4f944395effe7b06431242538540d98), 0x888f2c33969763bc405c1164a3a6d4927cc40c1479b95df0b32b0dbe851dd9d),
  ((0x888f2c33969763bc405c1164a3a6d4927cc40c1479b95df0b32b0dbe851dd9d, 0x4040b0aba109e0025ba40b62dd385fbaca406a683ea1382c39f27317389004), 0xfecb2b39fb96f07831acd0e23e87d9d37e5cbd2047cefb5e920a67ed72aa1155),
  ((0xfecb2b39fb96f07831acd0e23e87d9d37e5cbd2047cefb5e920a67ed72aa1155, 0x5554904bd470ef1509c9f095b311c41c872074f3c995c77be38d8aef4bd2a611), 0xf643cc9255f0674182f88d9e6b9b17c097a6c4a0d2cdf9ac9841d4c5510c4700),
  ((0xf643cc9255f0674182f88d9e6b9b17c097a6c4a0d2cdf9ac9841d4c5510c4700, 0x5514d0fb7ec0f14a83b474fd7c7d1d6f0c6de2069365397429221e21e2bce04f), 0xe8e07ed05188af0f65ba2fdf5fe59ed155756dedb136961f30ac848541c0b04f),
  ((0xe8e07ed05188af0f65ba2fdf5fe59ed155756dedb136961f30ac848541c0b04f, 0x544097fdf081d2b68df131ee45f692dbb219a83477021aed5d23c6cd85297bcc), 0x679b88958f3bbdcb04ad0ecd62544db26d885bb5321527a7adcede280bb92b99),
  ((0x679b88958f3bbdcb04ad0ecd62544db26d885bb5321527a7adcede280bb92b99, 0x141572760377da3d7b19ac1c12fd38adc6da63b3088817db8ac1a703c9605f57), 0xd10d621b74213644bbf25302a56d6131aaee46b89b10620184db0e338a94ce16),
  ((0xd10d621b74213644bbf25302a56d6131aaee46b89b10620184db0e338a94ce16, 0x5101cf9f20a23ec2ea5b83ca476e2c3d90d7bcb2320f9eb33071f5f5cdae9b8f), 0x6ff477672ddf72b15083dee093b632b731fbe8b0a2035587ed3c94e03147ca9b),
  ((0x6ff477672ddf72b15083dee093b632b731fbe8b0a2035587ed3c94e03147ca9b, 0x145566d36bba3dda8e60f3fd1cb7bc015d9456ac2a8ede58d5173c0bf23a6dd2), 0xa9559a2368719526bae4d9a25a3928b922a36cdc0fda409f936ece877e64cc97),
  ((0xa9559a2368719526bae4d9a25a3928b922a36cdc0fda409f936ece877e64cc97, 0x4441eeec0eaa4329f5beafbdd13b42e7bf7fb5c0c87b1f618189ac0e8ed3b641), 0x12e4a2fbfc19bff934faff184785c20ab60d6c5b8c78f106b13c16e8096f0754),
  ((0x12e4a2fbfc19bff934faff184785c20ab60d6c5b8c78f106b13c16e8096f0754, 0x10457dfbebf0f581d2e72b5ca4317b33db72f743f6e897e5c6742f12d6b3fdb), 0x1e22c55ed04628f471c9cddcc21b4d96e9cd737204214bdf69135f8ae4f3becb),
  ((0x1e22c55ed04628f471c9cddcc21b4d96e9cd737204214bdf69135f8ae4f3becb, 0x15407076b5989aa0aa78872c8533328fe167e48eb6d2f9517550b2fec6237e6), 0xb6e16802c1e5a473d3c646ca742cfd35cdc2f8abc30facd843f19411729e47a3),
  ((0xb6e16802c1e5a473d3c646ca742cfd35cdc2f8abc30facd843f19411729e47a3, 0x4514a8fc5322ddc4cad9b4c49fffe11d8c917b5b1bd643288f4ae12f6e29f217), 0x71583507471df592e9121d42d889f1e6cf7a45ddbd380c46e1040fefa7016612),
  ((0x71583507471df592e9121d42d889f1e6cf7a45ddbd380c46e1040fefa7016612, 0x15012180b03b17fe66f707091ab1f1da94c75feed71cb53e79bcce720f6e7e35), 0x790035ed5d8a52063481941c63b9723bef00865ccdc62b407dc73de451f84f31),
  ((0x790035ed5d8a52063481941c63b9723bef00865ccdc62b407dc73de451f84f31, 0x1541303081532ecdd01e16e3964eae3c3f4eb4c506cf47cceca052079b4bf532), 0xc5245c9108c8303b1b2e1e5f58ca50e9e2b26892066519e7b7fde9c10dde1033),
  ((0xc5245c9108c8303b1b2e1e5f58ca50e9e2b26892066519e7b7fde9c10dde1033, 0x5011c82210fc98b5071bd56ee72a8822a3dd33211cd5b8dc88bf5000b959d8e6), 0x72636702af55f1ae80dd958fc2ce8b38d0229895c9855019f7e31117fca1fde3),
  ((0x72636702af55f1ae80dd958fc2ce8b38d0229895c9855019f7e31117fca1fde3, 0x150424c96ddfe98eb3887c1e7a56c5487cbb7e2b3fb3532dc84e31053a65b026), 0xaf24371b5a1a053d59970509d58afcb4369b623ac732f278f4fdf1938a08c423),
  ((0xaf24371b5a1a053d59970509d58afcb4369b623ac732f278f4fdf1938a08c423, 0x4455fbde79487c56163c8b53d82d53fac4bd13ac1f4437ee520d247a8b2538b7), 0xc2a214d5ccfdc9cc98aea009de1e6b3b4f2a8443cc705e1be38bd8d6060eecb2),
  ((0xc2a214d5ccfdc9cc98aea009de1e6b3b4f2a8443cc705e1be38bd8d6060eecb2, 0x5004880633cbcc3ceda423a9d7756dbec6d644a1da6653237acb5f97293a201a), 0x45c97103176ad4cb35a81ddfd74498bfe60945b17507ff1779e326bea03051e),
  ((0x45c97103176ad4cb35a81ddfd74498bfe60945b17507ff1779e326bea03051e, 0x10116c7d8ca383afde261b5d1ef8052ee65cdf269bbcd95299090630848b98), 0x8c79d3fd0cd87d25e54b1f90f1804a5b967c5d39bff598c3f99f64a8eef50acc),
  ((0x8c79d3fd0cd87d25e54b1f90f1804a5b967c5d39bff598c3f99f64a8eef50acc, 0x4050e583373491e809f2cdc320099a1e956112a64de9b51015652936e2c3c06d), 0x44a26649c72eaf799b135f39cbd2444200dc697c0ce8f5bf5bf7c3946011203d),
  ((0x44a26649c72eaf799b135f39cbd2444200dc697c0ce8f5bf5bf7c3946011203d, 0x1010783b7e7042e1730dd27309de23b19a25c30ea32a1108ffced2425bed3af8), 0x621f84d4c5b7d5b26f0bd8889bc16b6505063f82926b10501fe0ce6e4a5fbfa9),
  ((0x621f84d4c5b7d5b26f0bd8889bc16b6505063f82926b10501fe0ce6e4a5fbfa9, 0x1404325930ba0eb4f203b53036b32270ae6c23ef1cbfa25203cc34ac15c98843), 0xafb60de4ef76f2d8a2ce3240999f03958cac609dd3f769ea0bd0d4953231dc02),
  ((0xafb60de4ef76f2d8a2ce3240999f03958cac609dd3f769ea0bd0d4953231dc02, 0x4455bada8fcd477a7fe2a00598eebef14ff3cfbdc80c0c160ff6990910d3b447), 0x6d9d47d177fda8e15d5a93bb678d1ff3b46e28d0dd20be9ce41a05c6d5ad6443),
  ((0x6d9d47d177fda8e15d5a93bb678d1ff3b46e28d0dd20be9ce41a05c6d5ad6443, 0x1451729d5daf75e8f1cb7c2e58aa9d8ce8aaba0cf7127e5a26128c98ed3568da), 0x69b492ad849876a0f671f175f29bd401c05cb5489fabd6ba3750097bc18818df),
  ((0x69b492ad849876a0f671f175f29bd401c05cb5489fabd6ba3750097bc18818df, 0x144176e000db77b8e237eb269c2e7aad7fb626dcec080e7e97f228d63241aa70), 0x2c09ebb60b81941a5d23c239088b488e0355dab5aaada3566c1a4d1bee4cfb25),
  ((0x2c09ebb60b81941a5d23c239088b488e0355dab5aaada3566c1a4d1bee4cfb25, 0x4500f8dbcc7bc1156f7bd2881cc5560fed9645c00050217ae7e8d151e36636e), 0x3d8c3676399ece2d1c4df4e6dc4daa6ca77d08c97aa93a7b85bc661b5fe4c77f),
  ((0x3d8c3676399ece2d1c4df4e6dc4daa6ca77d08c97aa93a7b85bc661b5fe4c77f, 0x5514c5fe4f1e680d06954f7e9a3ea5e165abd2c9da4d3654eac0426ae5bef7c), 0xd6fc185137af1d8b97595ce59431e3aab12fec5cc69849360d50032e0877ba29),
  ((0xd6fc185137af1d8b97595ce59431e3aab12fec5cc69849360d50032e0877ba29, 0x51149aae3662efba693010496e2070ab337b66dc16ebfbe66ba866006b965c16), 0x86b251394485c94bd5cace972fee73fa754228fc6853084549aa26e5d4bf7857),
  ((0x86b251394485c94bd5cace972fee73fa754228fc6853084549aa26e5d4bf7857, 0x4014b539b57f423aa1084fd4a3ddd42af0d3f996dabf7a5dc458d33a572124db), 0xb0baae7f98b528c0bff33c810d4f1e62dfd675636a53a2ad8d480422727ca5ce),
  ((0xb0baae7f98b528c0bff33c810d4f1e62dfd675636a53a2ad8d480422727ca5ce, 0x4500b98a3f7a2a57079bc78e320a8b15e78b485110356ff1f3d8b8b0c2741978), 0x3fa865ff30ea93f76a4d1fd3bf02d5587d85e7cb6751bcbbb0908faa94bfc92c),
  ((0x3fa865ff30ea93f76a4d1fd3bf02d5587d85e7cb6751bcbbb0908faa94bfc92c, 0x5554840fa2dc3ef7dd31cc8dc6ac4582c69144cdb003c8ff564a02abc9f2c99), 0x3c3c2884d98788bc5aa4dacdc52add36a789c54654ca7c28d0d6be52a69e58c9),
  ((0x3c3c2884d98788bc5aa4dacdc52add36a789c54654ca7c28d0d6be52a69e58c9, 0x550095cd95258aafb1ad99929150e42b38c4524df5c6181c898a2b8aada66f2), 0x15e0fed2f7bccfef4c9ca45e4bc2a3c341288120b4579cf85f3f3b8fef0ed6b3),
  ((0x15e0fed2f7bccfef4c9ca45e4bc2a3c341288120b4579cf85f3f3b8fef0ed6b3, 0x11157ff6c991755a29c7840db73eb050260b02e21a0af8dc4f868fc2ee5584b), 0xa949942afc5a2f2c9c885317a50787eb53b8a4a16a46d7c3d262b21891db8d4e),
  ((0xa949942afc5a2f2c9c885317a50787eb53b8a4a16a46d7c3d262b21891db8d4e, 0x4441efbc0df27709b42b02a90fdea5737fab08e7d662ac3067c226f93b2f89c9), 0xfe740ffad9e176874ea029ea5dbf8c1dc0a2019a1a152787718aec6a573de99d),
  ((0xfe740ffad9e176874ea029ea5dbf8c1dc0a2019a1a152787718aec6a573de99d, 0x5554d51e2c6efa2282ed64a2d9666e243dbf3203a1ea5626482d420dfb97bddf), 0x77a27a67f88f49e1228277008b5fb66935e2e29698d7eb0d07f145f47c78ac8e),
  ((0x77a27a67f88f49e1228277008b5fb66935e2e29698d7eb0d07f145f47c78ac8e, 0x151574f7632f6f887d9ea6d8315cf3e58dfaeb80aa760be90c8110e8c53340af), 0x1029f062e580da266648b4ef24a588567c62ece20d8be0116627da855e5050fb),
  ((0x1029f062e580da266648b4ef24a588567c62ece20d8be0116627da855e5050fb, 0x1000781639ccdd5866aba6eea2a0732d098dbc93556bc120eb2d31e1e5532f4), 0xa0d23922f4dc99166f17a03a6bc6a87734092a8e98b795bea9ffe6995923a7b1),
  ((0xa0d23922f4dc99166f17a03a6bc6a87734092a8e98b795bea9ffe6995923a7b1, 0x4400ae0a74f3872e3eae4cc22aab901d6cf2c555f0ce1f2e64cdeff2640b8f06), 0x336f2f9401f8204135e67f142da25aca0ee2caf1df36f661062e89b53f6cea07),
  ((0x336f2f9401f8204135e67f142da25aca0ee2caf1df36f661062e89b53f6cea07, 0x50518992b99dabfe0bf6c7a339fb4fc3ba08df2e3eba6f22673eada7b53d502), 0xa3a29886c86c3cded617e92e93ea456793b549a81fd07be4bf67135726c63517),
  ((0xa3a29886c86c3cded617e92e93ea456793b549a81fd07be4bf67135726c63517, 0x4405bb06c0eda5eaa79c8a5dbb36e0870a912b17c388568a2895c1cfef61878c), 0xfe0143fd314c9e7ec51d91ed4856b46ef9d3a86c856b8a2621ff06188c9cc699),
  ((0xfe0143fd314c9e7ec51d91ed4856b46ef9d3a86c856b8a2621ff06188c9cc699, 0x5554c00f0cc24f77045ca1856b39dd25c531bc0acebef3545b0e6f5d03fd76e8), 0x31eebb6c82a9615fb27c05962ea56a13cdb45d7def42c317148c356c3114b7a9),
  ((0x31eebb6c82a9615fb27c05962ea56a13cdb45d7def42c317148c356c3114b7a9, 0x50158979a615b33d4466979d77fbd67cb0d68b1f72e79885b111880df45faa6), 0xc78709f4e0724160d863413b92cae906d8aed72f2c4c8d065d4da92b5d749ee7),
  ((0xc78709f4e0724160d863413b92cae906d8aed72f2c4c8d065d4da92b5d749ee7, 0x50158c28fe0a713fae6181110c73619d547b45cc7b6cd70f53b0dd23eacf43fd), 0x43b4a1c47d75f54af59e618faaebae8ae2ece3b6969fe76ac72a478e776aa7e8),
  ((0x43b4a1c47d75f54af59e618faaebae8ae2ece3b6969fe76ac72a478e776aa7e8, 0x1005791feedcd44454a1c3a786ebb08b7ffc3429584cf2ecae72fe3d02196299), 0x57f74d5c8e13eabef018da68303dd3aab24feee905fd903285043fb7b5ec46d9),
  ((0x57f74d5c8e13eabef018da68303dd3aab24feee905fd903285043fb7b5ec46d9, 0x11156ae6bc7ac1049996438e459213d21f4a621e7975ad15ad6fd2e8e3ccbf23), 0xbf7e526feafe9fab6bef1c2cbcff5536a797dd2a234c782b1fe7835e4087fe62),
  ((0xbf7e526feafe9fab6bef1c2cbcff5536a797dd2a234c782b1fe7835e4087fe62, 0x4555e95a6b0ac99a25a08f2218914c7f74f3aac1a6e8dcf06bb4bb9f76688b7f), 0x944120083af78d6175b4d7f6cc9f25e15aa27a47492448382b8e518ff5d4cf7b),
  ((0x944120083af78d6175b4d7f6cc9f25e15aa27a47492448382b8e518ff5d4cf7b, 0x4110e3f3593528c2164b1e7a2bbbdb7b76a78ee164dfbb6096a800951eb34ffb), 0xa1d8b4c28aebb8511965ee22fd231ead1bf5aad8660b3dff3d6f902c3475cabe),
  ((0xa1d8b4c28aebb8511965ee22fd231ead1bf5aad8660b3dff3d6f902c3475cabe, 0x4401ae4df4644263cc2c0e139c879c764c9dbd193b081e85803335113061c582), 0x9c9e175a184afb5365e7e4d9e2832455c97a1beedb0cd1818f55a96afe8c60d6),
  ((0x9c9e175a184afb5365e7e4d9e2832455c97a1beedb0cd1818f55a96afe8c60d6, 0x4150b2569d76c0c7d636b20e02860484fe9e929314e84982edd774b2c93efe1b), 0xb9d862913d6f7e400a65eef99174032874b6da57ea2bc33a652cb4ccd4073f0f),
  ((0xb9d862913d6f7e400a65eef99174032874b6da57ea2bc33a652cb4ccd4073f0f, 0x4541ad7d924462ea7fc2ddae0506e3db554a6e18a0e7609c1c2de2fec14f4ba6), 0x82998b76e46a33d6d4b46d9444c365a710698e01c2ae9c871045804fface6bf3),
  ((0x82998b76e46a33d6d4b46d9444c365a710698e01c2ae9c871045804fface6bf3, 0x4004b140e851454adee75d5ddd19e581996869952482df6070fbcb0a99e000c8), 0x8da69514b40b00e7f1a9cb543a0bfa1002416381d70e6c430a2c871d4e66d5cd),
  ((0x8da69514b40b00e7f1a9cb543a0bfa1002416381d70e6c430a2c871d4e66d5cd, 0x4051b4d52814afea9a7cac6aa611b88fe0a7213ee86401a63f7c6e938f39ef69), 0x27b45c44ee4a622983d4e917f16be77b4dc5ff02cd80ea1db79a9592b42dcf38),
  ((0x27b45c44ee4a622983d4e917f16be77b4dc5ff02cd80ea1db79a9592b42dcf38, 0x4154a20cb544049f14d723b181cf3aae0966e23b6baca2d3cb73b1b9c327457), 0x3762beab010e60b1219d46c745e04de7ae1e5f3ff8b477204d5d5691e346a117),
  ((0x3762beab010e60b1219d46c745e04de7ae1e5f3ff8b477204d5d5691e346a117, 0x51518f469c112ff370aba515cefea8a1aba4ec2187ff895b616297799aa1e68), 0x1cbf90cd7272db76634ad6497e9d5d70b46fba890f1ca8f6a26c20feb2ae9f7d),
  ((0x1cbf90cd7272db76634ad6497e9d5d70b46fba890f1ca8f6a26c20feb2ae9f7d, 0x150465989ace4cf09f8cf80130bf0fda6102f0c6e2882ec9c60de8ae217795c), 0x5f46daf7953c1bb34fb63d3b5eb990979b34b9c8c6c9c0e0b0c0f65d5e452c0d),
  ((0x5f46daf7953c1bb34fb63d3b5eb990979b34b9c8c6c9c0e0b0c0f65d5e452c0d, 0x11552f170ff9fd2946906274c0d2675f5ffe2a92dfeb2b3224e5a50996c3e8df), 0x127923940e883a8188dc353d2d4788aa08f672eaf81f8987fafc3b0810db88e),
  ((0x127923940e883a8188dc353d2d4788aa08f672eaf81f8987fafc3b0810db88e, 0x104168e0dbf445732d64378bdda895db6b087a369e018c604facc2c1f4bce), 0x19809df824096ba19a5475c8d2fb2d20e903694ada9d6795ff09f37df22eab9a),
  ((0x19809df824096ba19a5475c8d2fb2d20e903694ada9d6795ff09f37df22eab9a, 0x141433346526ccd27533458bdcbc19b8c178853dcd26a53b9c143c459604654), 0x7ea9fc3051e87b78e6a590ca622a3320861797e8573bfcd7656c70a5f3f5c710),
  ((0x7ea9fc3051e87b78e6a590ca622a3320861797e8573bfcd7656c70a5f3f5c710, 0x15547441eda5e3a5254669a8e65d87889ab8ae2387872925337d1cfb7db7b58a), 0x644a875145d5d51f84d72b234e8a54795ad3eec2014d42b66aaa9929398cd48a),
  ((0x644a875145d5d51f84d72b234e8a54795ad3eec2014d42b66aaa9929398cd48a, 0x1410237b0c306d7d23fa96839e3e18394e46beaa8b9c9cfdb12b70e32773e333), 0x6d2cc53f91af5f85203951cfd23e94cb00659f02b37a017c6c738865ed73b377),
  ((0x6d2cc53f91af5f85203951cfd23e94cb00659f02b37a017c6c738865ed73b377, 0x1451379ce166969b1b64b9df8e4acd431e26f2f53e47b21c27f8ae3a547ef979), 0xc0864662b10083e8bef3d95e4e54413a8bc10737770d137ef7af674289519c6c),
  ((0xc0864662b10083e8bef3d95e4e54413a8bc10737770d137ef7af674289519c6c, 0x50008c192d16ec049934a5e1e2e5c8eec7d107c85b3bfd112b716ce215bedc37), 0xcecda49faf04bbfbeb185b3b61ef25071d6286a155723d48f5238b0ff86d1867),
  ((0xcecda49faf04bbfbeb185b3b61ef25071d6286a155723d48f5238b0ff86d1867, 0x50549c9f48c5a174c681caa9ced131b4a2072be42dd92f2da7e0242f0cae2e2f), 0x2732a7244a31e5dda02ccbd8d031b5d599c6cd156b9744df644b243f9d056a3a),
  ((0x2732a7244a31e5dda02ccbd8d031b5d599c6cd156b9744df644b243f9d056a3a, 0x4150a346e2cccc7a674b62687cfc30a47a5da505c0d22aeb0789a72c3e15fc8), 0x216f9077c64f36f6df8f6390d609a5d475e9335039224b3b25523b168236da8c),
  ((0x216f9077c64f36f6df8f6390d609a5d475e9335039224b3b25523b168236da8c, 0x4011b565746fcbdabd6cfca8a2a8b6f5db81d502d131c097d70f53a198e6128), 0x56ab0ca212a8d012ef5b7611f90b7c08565c9f7a11c40482c291983aa3a3a178),
  ((0x56ab0ca212a8d012ef5b7611f90b7c08565c9f7a11c40482c291983aa3a3a178, 0x11147bb5534d6533aded2f9972d23395a27dc133561218ef6784bbd596bddc9b), 0x45c2ad3649667c04c7abdfbc652abf3ed73fe72ba2d98892b400d4604c1d59db),
  ((0x45c2ad3649667c04c7abdfbc652abf3ed73fe72ba2d98892b400d4604c1d59db, 0x10116c38dd0f87382559c45c9a260e78abb68079f936663f9f51644b50422bc9), 0x91c1510f9b6f2ef8058b3d55bfaa4aad543fa081564a326f9bb885cd5aa00a8c),
  ((0x91c1510f9b6f2ef8058b3d55bfaa4aad543fa081564a326f9bb885cd5aa00a8c, 0x4101a3cc7f95dfc583dcfcf9df404d2a3b6c1c967ec78de7c0389f143fde7ee7), 0x9d6ef09217bf59b753c8dfba6c9aacae09cf7d85a86c1a907a3e03325fb2eeb7),
  ((0x9d6ef09217bf59b753c8dfba6c9aacae09cf7d85a86c1a907a3e03325fb2eeb7, 0x4151e755c9972d6456883d6796e4ea23b520ac722c711de79b4b74344543d66e), 0xa1a3090ef816c214d8289b4ae487d7e10bbfd59ed2151f31e98651fa6fb0337b),
  ((0xa1a3090ef816c214d8289b4ae487d7e10bbfd59ed2151f31e98651fa6fb0337b, 0x4401bb08810a6a9595aaa52db43830bc4bf85eb161e33950fe7ea929cbbfc6bb), 0xaa72e405fb26c80a56e93ecb5b3619951b18a0517cea386aaeb33557c76543fe),
  ((0xaa72e405fb26c80a56e93ecb5b3619951b18a0517cea386aaeb33557c76543fe, 0x4444eaf5d4128232dfa723a0030f1a03f57a550bf6a3d65c94ad0d61b524d49f), 0xfd4d894c8f82680a8397aeedc528c3f057c811875c62528446555cf90fc3d1cb),
  ((0xfd4d894c8f82680a8397aeedc528c3f057c811875c62528446555cf90fc3d1cb, 0x5551d053a0958e43a509f73fdf5e399a7f07200d2ece2c6036108a3054898850), 0xd46cb8565abad18ea50845f0f43019854dd8801baa92fddaeacbd852b93bd815),
  ((0xd46cb8565abad18ea50845f0f43019854dd8801baa92fddaeacbd852b93bd815, 0x5110dba18149cec94b254a06b3b3d40c3b96b5de51d7c321c19b12870cdd9bab), 0x39abdc4529b1661ca9582618e03fc9aad5a61266f0c9392c180ec6d33cfd0aba)]

def certList64 : List ((Nat × Nat) × Nat) := [
  ((0x39abdc4529b1661ca9582618e03fc9aad5a61266f0c9392c180ec6d33cfd0aba, 0x5414876bc13f5ad39c6db10273d378c630230b29605afbea5a467c82f1cbcd6), 0xa23e49ee6f1a7a8da5a28cccb37dba5bccfc8ca2814de79e8cfe9bd9ab71d992),
  ((0xa23e49ee6f1a7a8da5a28cccb37dba5bccfc8ca2814de79e8cfe9bd9ab71d992, 0x4404fa55a2d77e389b73dc6b7889b56ff0e1d573a9111c9bfb418c1c06a53d01), 0xd4e9921bccb8090bca8a45310219dc675e38f4fbb6fcda721b2a94a672a48c05),
  ((0xd4e9921bccb8090bca8a45310219dc675e38f4fbb6fcda721b2a94a672a48c05, 0x51109bb0753c4904f147b65aca6292ac9c9f12fe9ff57e956e7c8a315c39bb60), 0xee658f69deb5df26fa0587a90f71743834cd4cc8228d74acf30974a2b1dbbb71),
  ((0xee658f69deb5df26fa0587a90f71743834cd4cc8228d74acf30974a2b1dbbb71, 0x5454d7df56c280bdef1516b1fef8cdb6d73fb81d1c3dacafe8be919603e92788), 0xd7aaaf48aa459c582573e3218d8bb7dad2c0d8e0c8a2fb9bb42bd4670583b289),
  ((0xd7aaaf48aa459c582573e3218d8bb7dad2c0d8e0c8a2fb9bb42bd4670583b289, 0x51158bb98cbed1d8fc9300514cbfd01b8b390ef2aeb276cf2dc82b9b9397d8c2), 0x8fd437c01abeab24d82be75b83dbc2d0cc7efdcfed1ac303f6a5ab84efb67883),
  ((0x8fd437c01abeab24d82be75b83dbc2d0cc7efdcfed1ac303f6a5ab84efb67883, 0x4055a1de5c39f7f5cc0619b765e7e33aa1b9dd2cef6b75eea8cc638a386245a1), 0x7d16742eceb4d5abb0b87a330b854c8aedc8b8d02a22310bc85ee5171484f5a4),
  ((0x7d16742eceb4d5abb0b87a330b854c8aedc8b8d02a22310bc85ee5171484f5a4, 0x1551311891378bf85f7427c93ea6602ef22097cba09149c4d97ef45d7826f417), 0x6533981804b420ea13c97c0891cab48a4157dc48443e35654298ba0e862a6007),
  ((0x6533981804b420ea13c97c0891cab48a4157dc48443e35654298ba0e862a6007, 0x14113639fd6c954c4f8e366e76d862a522a3a5463b24424d7b9199f9d74a9469), 0xa1ee335d14807ae0613b2ed9f0acc107edc28c89cb341660ee5f5a6f02dfe47c),
  ((0xa1ee335d14807ae0613b2ed9f0acc107edc28c89cb341660ee5f5a6f02dfe47c, 0x4401ab59b8822ca850df0d24e3b86421b9c28ca2b51e84a7b3f61c91e625230a), 0x799d469b2145a8a30531513e8e0ac7064b26f71c1fb1b47b5ec3050c6b43565a),
  ((0x799d469b2145a8a30531513e8e0ac7064b26f71c1fb1b47b5ec3050c6b43565a, 0x154171616757a441ad88e8367be1986254d0a6810b97b3fce02fcea65e0f597a), 0x6007bb31ec5a2964b6acd7be4906b73d7123f2290a1f413b34f0a6799020283e),
  ((0x6007bb31ec5a2964b6acd7be4906b73d7123f2290a1f413b34f0a6799020283e, 0x14003316363add5ad0a062a9993641febd6d70fefe8e2b1140171d91af8a8be9), 0xec907801890a47ab7e42d6f54484049954fe6df4cff0db73aa0711c54877febd),
  ((0xec907801890a47ab7e42d6f54484049954fe6df4cff0db73aa0711c54877febd, 0x545082c1c3c03a88ec6c8e82d6fce9ed9db90ae5d8847f79c8924bc356390322), 0x964e9d188c16508ed8c4367e574ab1603ec263f5c999196e03833e601d82a673),
  ((0x964e9d188c16508ed8c4367e574ab1603ec263f5c999196e03833e601d82a673, 0x4114e3a91c41a419fc719df99ee3d87f34729b8707e4373d18b1947da3b5f474), 0x24d9ba21277dd8d815ac212f3b861b5af524fd4408357a5cd64f3f2aaf8f2171),
  ((0x24d9ba21277dd8d815ac212f3b861b5af524fd4408357a5cd64f3f2aaf8f2171, 0x4105e7d6c50fa24c6b5e0b7f97b88deb982a881de55cf872018c09a3fd3e7df), 0xf89354cfe1e6b5fb17a7af3e97d8c402bbe0e2c0c44b2e1cfe9b778d7d1ca2de),
  ((0xf89354cfe1e6b5fb17a7af3e97d8c402bbe0e2c0c44b2e1cfe9b778d7d1ca2de, 0x55408138fd656422bef80c8f7fea76e22e83349ead10794561771f50ecf35729), 0xb89526857566cd94aad8c318bc459ccef4873d277cd1ab72695cf225704e767d),
  ((0xb89526857566cd94aad8c318bc459ccef4873d277cd1ab72695cf225704e767d, 0x4540bd2f7ea16bf04704dbe48dad07720edcbd174bb3e2d4e01c9d9239871c0e), 0xb81875d0f4f6f253962c90a866ea6719c51212c8b1aa27873dcd32f39276a95f),
  ((0xb81875d0f4f6f253962c90a866ea6719c51212c8b1aa27873dcd32f39276a95f, 0x4540fd7e9f65d316b7b1821f80d6493a2a0d72c36aee5a3a517acfa7c7ec413d), 0x11495a1b200d4eb8a5a140826c351d071c554e97b2277f47b43cf8e4eaf8e068),
  ((0x11495a1b200d4eb8a5a140826c351d071c554e97b2277f47b43cf8e4eaf8e068, 0x1011382d4e23b18733e4bcd9180546f28f6a7eeaf4c915f0f5785757dcfa972), 0x3e53bfa0db28e11005af69bf1fb82891ff957b6f55288048417b73b324735d32),
  ((0x3e53bfa0db28e11005af69bf1fb82891ff957b6f55288048417b73b324735d32, 0x5541d06ab61add154ed33f6bc40d4a27b52a884f93ca19adc2b15ce03030d98), 0x48f6214560239b46d3da65e82bdd39e2fdb3f4ea18f0a56bb6c7a6004612889c),
  ((0x48f6214560239b46d3da65e82bdd39e2fdb3f4ea18f0a56bb6c7a6004612889c, 0x104069e75c57ed14002fe4e3e29eb87b094aa5e5be4457a76eb2f9c6b2e9850e), 0xde364ef64a484f59ec60b640d685171dd9dc0929a54fea75f1267ba0ec3c645e),
  ((0xde364ef64a484f59ec60b640d685171dd9dc0929a54fea75f1267ba0ec3c645e, 0x5154ca1ae5df9b6e6540bb22ceffb56b78f4c766c5357373096dbb99f9b824d4), 0x2b29c7d3ef18d3b3cb6286958a9af01ad7f1c5ade3de404a2761cbab38e0f580),
  ((0x2b29c7d3ef18d3b3cb6286958a9af01ad7f1c5ade3de404a2761cbab38e0f580, 0x4450bbd74dd62a5f3d97652899e623a15e1f038bb42a39d5ffa201f996badd6), 0x6a3b6a431109e3d199455c744595c01f547db3576511edc25a5ce93f67a3cdd6),
  ((0x6a3b6a431109e3d199455c744595c01f547db3576511edc25a5ce93f67a3cdd6, 0x144436b96589a6f5eb64c9bb1920d374cde5f7a306bca83a94431cdda085428a), 0xd2333b0c03f620ed1d0a619aa607480d9d73da9f40f374afd80c1c832a739e),
  ((0xd2333b0c03f620ed1d0a619aa607480d9d73da9f40f374afd80c1c832a739e, 0x5104cac7fd3c02e52f27875cbb59e23aa5773dc249a04ba6cb49a8ed0d78), 0x3f03458e0273439b2a47bd3fc39081daef46e42368baead311428ceb13f2cc2c),
  ((0x3f03458e0273439b2a47bd3fc39081daef46e42368baead311428ceb13f2cc2c, 0x5550c0501dfa919c94e1a2f985b2eef7e80c06fd2f9e460a8ea10a3b8641adb), 0xade2626c292a2a9f0fdcfd4ab0f5afee9f8160e9d012439847558e815c898e8b),
  ((0xade2626c292a2a9f0fdcfd4ab0f5afee9f8160e9d012439847558e815c898e8b, 0x4451abc5a482243886f15fb7caf91a5bd1b0043751b25b897009a1f27b430217), 0xc35abe5cebab1ba4d84fc5f798c1a55ef8be2d3d6ce206b0e848ff06d72a9252),
  ((0xc35abe5cebab1ba4d84fc5f798c1a55ef8be2d3d6ce206b0e848ff06d72a9252, 0x5005dd45778b0309c2ed6b7c071ee8f12e5d37bccfdfcaddbe5a92c132749688), 0x7c25b2c3282fb73060ef7116e6f3c1e0ee1d857a675ca074b0dd0edb19af078c),
  ((0x7c25b2c3282fb73060ef7116e6f3c1e0ee1d857a675ca074b0dd0edb19af078c, 0x1550341e0dd660aaee47b021ebc0b4e9149c4903b8c890073eefca754abe10da), 0x6298f48fa13cc12f57059d3707ee283a6b590805d407e77eb51a19064886308a),
  ((0x6298f48fa13cc12f57059d3707ee283a6b590805d407e77eb51a19064886308a, 0x1404724cd584b7b4037f97037a0bc2431a5d672a0cbdf2b8e1d9e6593192b274), 0xab5d0760d1fe77dc1780be415c86b5d5cf69cee6182fa1644f1102acb29c3230),
  ((0xab5d0760d1fe77dc1780be415c86b5d5cf69cee6182fa1644f1102acb29c3230, 0x4445eea34fee12bde5777d995f895bb216a8c3466204ef7948d0feb628bd1a11), 0x10000e5f7bf7a58bd81275131f4f91f8a57d650a8007d505c639b7c24b26ef11),
  ((0x10000e5f7bf7a58bd81275131f4f91f8a57d650a8007d505c639b7c24b26ef11, 0x10003c0393b2354bf7daf918557c68cb12183e16a71777179b2a451dc7f39ec), 0x9d89163f581d1e0743eedc2ede6d478f1d3279f36823213295b23eaa04478ed),
  ((0x9d89163f581d1e0743eedc2ede6d478f1d3279f36823213295b23eaa04478ed, 0x4151b3405ebe41c2e5bc2a8b6191f3f5f93a480a182152f3e433abfb856651), 0xf567382197055bf04823b45b89dc689c69e6e6e431a2d40bc04b4f9c5d26c200),
  ((0xf567382197055bf04823b45b89dc689c69e6e6e431a2d40bc04b4f9c5d26c200, 0x5511d4e7e430416dcdd62a0dc3be37640345a2b7404375a6e690e3edf008aa66), 0xda01b157a2b021e9be61763d20685d37f32c270b20ce5f3809f16c9da06c8a66),
  ((0xda01b157a2b021e9be61763d20685d37f32c270b20ce5f3809f16c9da06c8a66, 0x5144cf33bfecf3d7e26cf164e6fb14598ab89325004e913b4cb01b84e3de236c), 0x9d7c0c2cf565896ca1fbf40a9936c15daccd356978aafc8ec6d70a8c6aec7778),
  ((0x9d7c0c2cf565896ca1fbf40a9936c15daccd356978aafc8ec6d70a8c6aec7778, 0x4151e6519f0891bb6ca9edbe7f67792eb73397b9dd99809ed250bd601d3b327f), 0x592056e6bbf026f6fbdcc8828b2c1889327a229ce124857890c526d9d0b6773f),
  ((0x592056e6bbf026f6fbdcc8828b2c1889327a229ce124857890c526d9d0b6773f, 0x11413b307fea33319c23f70fca0459a4b3635240b80851798231f9b7554f0250), 0x746ea463d01f96a40fbd392d992b9686e63e390ab5f8a1a5a14aaaccc2890705),
  ((0x746ea463d01f96a40fbd392d992b9686e63e390ab5f8a1a5a14aaaccc2890705, 0x151024ab3e66b39deb71935f6334e1266e3f250cfb132a478a429b83a4683124), 0x4d1dc582c66946beb4bb676b08602d23441424d88baa1859d8cd74de1850f135),
  ((0x4d1dc582c66946beb4bb676b08602d23441424d88baa1859d8cd74de1850f135, 0x10513d9d0819042a00c60b936a30fd336d0574ff44fc57b324a084fc14d6d15d), 0x621c1b93e8fa11834b145a211d1fdfdf994b90f8d7149b3d2adbc6211da0644c),
  ((0x621c1b93e8fa11834b145a211d1fdfdf994b90f8d7149b3d2adbc6211da0644c, 0x1404325c71e32d73b62a59eefaf9f966a15da6fad3314b0c21afe9c914a87c8f), 0xfaf3fe8684e4e6117bd5128045929790340889c14a3c57362fd0c3d604d53cdf),
  ((0xfaf3fe8684e4e6117bd5128045929790340889c14a3c57362fd0c3d604d53cdf, 0x554495378ac74416cb94c1220518401adcf60c63a0737136b8a6ffccbf146442), 0x4a55ccb047f7ed1f6d8bf975dcc010745f15699d4848bfcc01e53e1bc659d517),
  ((0x4a55ccb047f7ed1f6d8bf975dcc010745f15699d4848bfcc01e53e1bc659d517, 0x10442dedf7e1b9a0838a8f78e2c957e6a7c29e8de42fd0c9cdc1b50921629d2d), 0x929a14fdb0efb0b5efcb70ac050d5190629372507db35e6171ce8d56b9692c38),
  ((0x929a14fdb0efb0b5efcb70ac050d5190629372507db35e6171ce8d56b9692c38, 0x4104b2859067041fdb5d3a60189d27b3c7105944161d6a9295872fa68e4541e5), 0xcf9e9a1026630265de5841dcae8e37bbe890fcbab799d18627d627035f8c74a5),
  ((0xcf9e9a1026630265de5841dcae8e37bbe890fcbab799d18627d627035f8c74a5, 0x50558d99b267ed50a87f00f1af7e1ad1e738d66601e0886e8e508c28bd162809), 0xbfbcf2e3dee7abfa9d53ec478a607c58fd3a5a8b24565256b405010a26f11c18),
  ((0xbfbcf2e3dee7abfa9d53ec478a607c58fd3a5a8b24565256b405010a26f11c18, 0x4555b95ee308bb1e4e4620aa08856f8c4719dcd5e398d0fbba1738496e2e45ae), 0x20d9430de74248c9bc2ad4d4d5a4ecb88f148500f69fe8f8b072a316838de4ee),
  ((0x20d9430de74248c9bc2ad4d4d5a4ecb88f148500f69fe8f8b072a316838de4ee, 0x4005e413a87cd666f7635ed8bce51555b59e92f9e1cee3d19466912e8df653e), 0x6db40995b68e4c6863eb42892a0f4361a0851e63a9ec247c732bd9e5c94b916a),
  ((0x6db40995b68e4c6863eb42892a0f4361a0851e63a9ec247c732bd9e5c94b916a, 0x145176dc420872e66ea69bee9ed51963883a537711b41f8195f70b140c46e68a), 0x8543e7ab4077f4329f4387fbb3eebe2b38ada6d1a5427bae87d88258b7992ce),
  ((0x8543e7ab4077f4329f4387fbb3eebe2b38ada6d1a5427bae87d88258b7992ce, 0x4011e034f079fdef14389e9a9996d01ec35ca391d75929016e539d3b3f74a3), 0x2281c456455c4a6d7f05b87543072eb80a1db90231a55a326735bb34738c34f7),
  ((0x2281c456455c4a6d7f05b87543072eb80a1db90231a55a326735bb34738c34f7, 0x4044f0e4544311154f0c958022253443f8d6b1cea4d433f7f45a43753876476), 0x2432aaa71d816e63259022fe05f4023e0b4df9e68366344a053ff7e4e8581163),
  ((0x2432aaa71d816e63259022fe05f4023e0b4df9e68366344a053ff7e4e8581163, 0x4100a38aea15ff4426f58ed9feb415c9411d2548aa5be8ab37c26b54d8bd904), 0x65e8192b0d9e2abdcdf361320fa2c0b81690de70406c5b2fc89e47923390d01),
  ((0x65e8192b0d9e2abdcdf361320fa2c0b81690de70406c5b2fc89e47923390d01, 0x1411677c725c5a9369f282558b3e127414d431997f1606a3793aee8c04338c), 0x6f46880c9915650efac68c11fe1e596ce3da1faabf2f681d54ae81c77079738d),
  ((0x6f46880c9915650efac68c11fe1e596ce3da1faabf2f681d54ae81c77079738d, 0x145523d7c22e6e68d1d79d54855e620a0ef48307806e22a1da653f3ead8b359d), 0x8de6f3aa90cec54870f4ef60d5dd38903ac1fea4d54d07109350f3f8897dc5cc),
  ((0x8de6f3aa90cec54870f4ef60d5dd38903ac1fea4d54d07109350f3f8897dc5cc, 0x4051a4d500034f7d3e74508662a13dd5322b27799cbec0cad4e430d7e64343d6), 0xf930e902851defa3cb5512bde4e7bf59c22f28a3d0afc80be7b23f10622b3386),
  ((0xf930e902851defa3cb5512bde4e7bf59c22f28a3d0afc80be7b23f10622b3386, 0x5541c53e870fd9ec460cccabe8602b4c458efa63435b9d88a3314032d5128c1b), 0xb05640b794289f317a55e55bbd72fb817bf0fe15bdc9337fcaefa30f55ce5c0f),
  ((0xb05640b794289f317a55e55bbd72fb817bf0fe15bdc9337fcaefa30f55ce5c0f, 0x4500eddaa8ef9c978684fb948237f60486ef824906b24182040c43eafebd1d3f), 0xfa65f166fbb0db461d6cf653e616a08b8b27bb7572d287130121e7a60194d6a),
  ((0xfa65f166fbb0db461d6cf653e616a08b8b27bb7572d287130121e7a60194d6a, 0x5544d423796f71061d5e9bef25797da9840eea2f12ded327009b004cbfc120), 0x7a974830be953c4a1c46fb7ea04848573444a78d93dffc9a646fe4bfa600d564),
  ((0x7a974830be953c4a1c46fb7ea04848573444a78d93dffc9a646fe4bfa600d564, 0x15447129a7203d80a6844a7adbc049cb74f5397f7f9ff44e737a13996ce90254), 0x7691957a691df817b8f35b514eb14767be489e3f8ac415340ffabb6c5ce8d644),
  ((0x7691957a691df817b8f35b514eb14767be489e3f8ac415340ffabb6c5ce8d644, 0x151471f1fb8fde2932ab78e65d31ce377be0ce3f22ef6b90a4027866570dd64a), 0x57f44892a2ad86eaa9c11c5aaf2cab9783f997e75e88067f5b16024d0563a65a),
  ((0x57f44892a2ad86eaa9c11c5aaf2cab9783f997e75e88067f5b16024d0563a65a, 0x11156ae3bc6751b3415e9de7eef988176755cbf099a4377864129f7ec0d3c231), 0x6062e8c7dc309cb2947c9b3af027e7917fe5c232f064f464a6c7eee290c62375),
  ((0x6062e8c7dc309cb2947c9b3af027e7917fe5c232f064f464a6c7eee290c62375, 0x14002707140307610123afc7f27464ef6c8e2120a5edde834d1e3b8a09a807f0), 0x2629bab11c98b6ae4c5bac1c57856ed752a29a371c84710f038e07e40a2812e1),
  ((0x2629bab11c98b6ae4c5bac1c57856ed752a29a371c84710f038e07e40a2812e1, 0x4140b72ac7816035f19eb33d161606025df226e581ae5057d0eb423ab8d0232), 0xaaa38210dde97c64c3f6fbf07e4643273e3494a05f161ecd637242c48b99b633),
  ((0xaaa38210dde97c64c3f6fbf07e4643273e3494a05f161ecd637242c48b99b633, 0x4444bbf40fc8847a690ff1b1567749f0dcd53bfd38a552190abc7cef61b6b82c), 0xd6e3b368fb2a311081d165297d239d2ac188ca2c76798705c4d01c7eb078fd29),
  ((0xd6e3b368fb2a311081d165297d239d2ac188ca2c76798705c4d01c7eb078fd29, 0x51149bfb7127e1779b0335a3860a0ec226c557dbd790841185ca5526a471f367), 0x6309de7dbb3bf59d5a70368075759194acfe2b03b09803d07f90ffb775c02726),
  ((0x6309de7dbb3bf59d5a70368075759194acfe2b03b09803d07f90ffb775c02726, 0x1405334ee23420e70635733bdc9a2f91f4f3ecf0324c5c76bf84b676f65dd6c1), 0xdb9d6b2d354321b478a3e873f00291ed902b0ee66222acc7f0f03027dfdc22d5),
  ((0xdb9d6b2d354321b478a3e873f00291ed902b0ee66222acc7f0f03027dfdc22d5, 0x51458e60dd9329fd16cbcd40f9471b538917bdb44b54cb98394c9666ae5a3aae), 0x39109bb02acbe63577710069854ee241c5004e441c522fb376e15d3efefdcbbf)]

/-- One squaring certificate is valid. -/
def certStepOk (t : (Nat × Nat) × Nat) : Bool :=
  decide (t.1.1 < 2 ^ 256) && (sqF 256 t.1.1 == (mulF 257 t.1.2 qConst) ^^^ t.2)

/-- A chain of squaring certificates starting from the polynomial `r`. -/
def chainFrom : Nat → List ((Nat × Nat) × Nat) → Bool
  | _, [] => true
  | r, t :: ts => (r == t.1.1) && certStepOk t && chainFrom t.2 ts

/-- The final remainder of a certificate chain. -/
def lastR : Nat → List ((Nat × Nat) × Nat) → Nat
  | r, [] => r
  | _, t :: ts => lastR t.2 ts

set_option maxRecDepth 60000 in
set_option maxHeartbeats 4000000 in
theorem chain128_ok : chainFrom 2 certList128 = true := by decide

set_option maxRecDepth 60000 in
set_option maxHeartbeats 4000000 in
theorem chain64_ok : chainFrom jumpMask certList64 = true := by decide

theorem polyApply_mulF (k : Nat) : ∀ a b (v : State), v.ok →
    polyApply (mulF k a b) v = polyApplyF k a (polyApply b v) := by
  induction k with
  | zero =>
    intro a b v _
    show polyApply 0 v = zeroState
    exact polyApply_zero v
  | succ k ih =>
    intro a b v hv
    show polyApply ((if a % 2 = 1 then b else 0) ^^^ ((mulF k (a >>> 1) b) <<< 1)) v = _
    rw [polyApply_xor, polyApply_shl1, ih (a >>> 1) b (step v) (step_ok hv),
      polyApply_step b hv]
    show _ = xorState (if a % 2 = 1 then polyApply b v else zeroState)
      (polyApplyF k (a >>> 1) (step (polyApply b v)))
    congr 1
    split
    · rfl
    · exact polyApply_zero v

/-- The semantic content of one certificate: the new remainder evaluates to a
doubled number of steps. -/
theorem chain_sem : ∀ (l : List ((Nat × Nat) × Nat)) (r n : Nat),
    chainFrom r l = true →
    (∀ v : State, v.ok → polyApply r v = stepIter n v) →
    ∀ v : State, v.ok → polyApply (lastR r l) v = stepIter (2 ^ l.length * n) v := by
  intro l
  induction l with
  | nil =>
    intro r n _ hbase v hv
    show polyApply r v = stepIter (2 ^ 0 * n) v
    rw [hbase v hv]
    congr 1
    omega
  | cons t ts ih =>
    intro r n hch hbase v hv
    show polyApply (lastR t.2 ts) v = _
    have hsplit := hch
    simp only [chainFrom, Bool.and_eq_true] at hsplit
    obtain ⟨⟨hre, hcert⟩, hrest⟩ := hsplit
    have hr : r = t.1.1 := eq_of_beq hre
    unfold certStepOk at hcert
    rw [Bool.and_eq_true] at hcert
    obtain ⟨hlt, heq⟩ := hcert
    have hlt' : t.1.1 < 2 ^ 256 := of_decide_eq_true hlt
    have heq' : sqF 256 t.1.1 = (mulF 257 t.1.2 qConst) ^^^ t.2 :=
      eq_of_beq heq
    have hnew : ∀ w : State, w.ok → polyApply t.2 w = stepIter (2 * n) w := by
      intro w hw
      have h1 : t.2 = (mulF 257 t.1.2 qConst) ^^^ (sqF 256 t.1.1) := by
        rw [heq', ← Nat.xor_assoc, Nat.xor_self, Nat.zero_xor]
      rw [h1, polyApply_xor, polyApply_mulF 257 t.1.2 qConst w hw,
        qConst_annihilates w hw, polyApplyF_zeroState, zeroState_xor,
        polyApply_sqF 256 t.1.1 hlt' w hw, ← hr, hbase w hw,
        hbase (stepIter n w) (stepIter_ok n hw), ← stepIter_add]
      congr 1
      omega
    have hfin := ih t.2 (2 * n) hrest hnew v hv
    rw [hfin]
    congr 1
    rw [List.length_cons, Nat.pow_succ]
    ring

theorem polyApply_two (v : State) : polyApply 2 v = step v := by
  rw [polyApply_ne (by omega),
    show (if (2:Nat) % 2 = 1 then v else zeroState) = zeroState from if_neg (by omega),
    show (2:Nat) >>> 1 = 1 from rfl, polyApply_one, zeroState_xor]

theorem jumpMask_lt : jumpMask < 2 ^ 256 := by decide

theorem longJumpMask_lt : longJumpMask < 2 ^ 256 := by decide

set_option maxRecDepth 8000 in
/-- The `JUMP` polynomial evaluates to `2^128` steps. -/
theorem jumpMask_poly : ∀ v : State, v.ok →
    polyApply jumpMask v = stepIter (2 ^ 128) v := by
  intro v hv
  have hbase : ∀ w : State, w.ok → polyApply 2 w = stepIter 1 w :=
    fun w _ => polyApply_two w
  have h := chain_sem certList128 2 1 chain128_ok hbase v hv
  rw [show lastR 2 certList128 = jumpMask from by decide] at h
  rw [show certList128.length = 128 from by decide] at h
  simpa using h

set_option maxRecDepth 8000 in
/-- The `LONG_JUMP` polynomial evaluates to `2^192` steps. -/
theorem longJumpMask_poly : ∀ v : State, v.ok →
    polyApply longJumpMask v = stepIter (2 ^ 192) v := by
  intro v hv
  have h := chain_sem certList64 jumpMask (2 ^ 128) chain64_ok jumpMask_poly v hv
  rw [show lastR jumpMask certList64 = longJumpMask from by decide] at h
  rw [show certList64.length = 64 from by decide] at h
  rw [h]
  congr 1

/-! ## The jump loops compute polynomial evaluations -/

theorem pAF_split (m : Nat) : ∀ (k c : Nat) (v : State),
    polyApplyF (m + k) c v =
      xorState (polyApplyF m c v) (polyApplyF k (c >>> m) (stepIter m v)) := by
  induction m with
  | zero =>
    intro k c v
    rw [Nat.zero_add, Nat.shiftRight_zero]
    show polyApplyF k c v = xorState zeroState (polyApplyF k c v)
    rw [zeroState_xor]
  | succ m ih =>
    intro k c v
    rw [Nat.succ_add]
    show xorState (if c % 2 = 1 then v else zeroState)
        (polyApplyF (m + k) (c >>> 1) (step v)) = _
    rw [ih k (c >>> 1) (step v)]
    rw [← xorState_assoc]
    have h1 : (c >>> 1) >>> m = c >>> (m + 1) := by
      rw [← Nat.shiftRight_add, Nat.add_comm]
    rw [h1]
    rfl

theorem pAF_one (c : Nat) (v : State) :
    polyApplyF 1 c v = if c % 2 = 1 then v else zeroState := by
  show xorState (if c % 2 = 1 then v else zeroState) zeroState = _
  exact xorState_zero _

theorem pAF_succ_high (n c : Nat) (v : State) :
    polyApplyF (n + 1) c v =
      xorState (polyApplyF n c v) (if c.testBit n then stepIter n v else zeroState) := by
  rw [pAF_split n 1 c v, pAF_one]
  congr 1
  rw [Nat.testBit_to_div_mod, ← Nat.shiftRight_eq_div_pow]
  by_cases h : (c >>> n) % 2 = 1 <;> simp [h]

theorem one_shiftLeft_eq (n : Nat) : (1 : Nat) <<< n = 2 ^ n := by
  rw [Nat.shiftLeft_eq_mul_pow, Nat.one_mul]

theorem and_pow_two_ne_zero (c n : Nat) :
    (c &&& (1 <<< n) ≠ 0) ↔ c.testBit n = true := by
  rw [one_shiftLeft_eq]
  constructor
  · intro h
    by_contra hb
    apply h
    apply Nat.eq_of_testBit_eq
    intro k
    rw [Nat.testBit_land, Nat.testBit_two_pow, Nat.zero_testBit]
    by_cases hk : n = k
    · subst hk
      rw [Bool.not_eq_true] at hb
      simp [hb]
    · simp [hk]
  · intro h hz
    have := congrArg (fun x => Nat.testBit x n) hz
    simp only [Nat.testBit_land, Nat.testBit_two_pow, Nat.zero_testBit] at this
    rw [h] at this
    simp at this

theorem pAF_mod (k : Nat) : ∀ (c : Nat) (v : State),
    polyApplyF k c v = polyApplyF k (c % 2 ^ k) v := by
  induction k with
  | zero => intro c v; rfl
  | succ k ih =>
    intro c v
    show xorState (if c % 2 = 1 then v else zeroState)
        (polyApplyF k (c >>> 1) (step v)) =
      xorState (if c % 2 ^ (k + 1) % 2 = 1 then v else zeroState)
        (polyApplyF k ((c % 2 ^ (k + 1)) >>> 1) (step v))
    have hmod2 : c % 2 ^ (k + 1) % 2 = c % 2 :=
      Nat.mod_mod_of_dvd c ⟨2 ^ k, by rw [Nat.pow_succ]; ring⟩
    have hshift : (c % 2 ^ (k + 1)) >>> 1 = (c >>> 1) % 2 ^ k := by
      rw [Nat.shiftRight_one, Nat.shiftRight_one,
        show (2:Nat) ^ (k + 1) = 2 * 2 ^ k from by rw [Nat.pow_succ]; ring,
        Nat.mod_mul_right_div_self]
    rw [hmod2, hshift, ← ih (c >>> 1) (step v)]

/-- The inner 64-bit loop of `jump`/`long_jump` accumulates exactly the
polynomial evaluation of its constant. -/
theorem range_fold_loop (c : Nat) (n : Nat) : ∀ (acc s : State),
    (List.range n).foldl
      (fun p b => (if c &&& (1 <<< b) ≠ 0 then xorState p.1 p.2 else p.1, step p.2))
      (acc, s) = (xorState acc (polyApplyF n c s), stepIter n s) := by
  induction n with
  | zero =>
    intro acc s
    show (acc, s) = (xorState acc zeroState, s)
    rw [xorState_zero]
  | succ n ih =>
    intro acc s
    rw [List.range_succ, List.foldl_append, ih acc s]
    show (if c &&& (1 <<< n) ≠ 0 then
        xorState (xorState acc (polyApplyF n c s)) (stepIter n s)
      else xorState acc (polyApplyF n c s), step (stepIter n s)) = _
    rw [pAF_succ_high n c s]
    rw [← xorState_assoc, ← stepIter_succ']
    by_cases hb : c.testBit n = true
    · rw [if_pos ((and_pow_two_ne_zero c n).mpr hb), if_pos hb]
    · rw [if_neg (fun hcontra => hb ((and_pow_two_ne_zero c n).mp hcontra)),
        if_neg hb, xorState_zero]

theorem jumpInner_eq (c : Nat) (acc s : State) :
    jumpInner c (acc, s) = (xorState acc (polyApplyF 64 c s), stepIter 64 s) :=
  range_fold_loop c 64 acc s

/-- The spec's 256-bit-iteration description also accumulates the polynomial
evaluation of the concatenated mask. -/
theorem spec_fold_loop (mask : Nat) (n : Nat) : ∀ (acc s : State),
    (List.range n).foldl
      (fun p i => (if mask.testBit i then xorState p.1 p.2 else p.1, step p.2))
      (acc, s) = (xorState acc (polyApplyF n mask s), stepIter n s) := by
  induction n with
  | zero =>
    intro acc s
    show (acc, s) = (xorState acc zeroState, s)
    rw [xorState_zero]
  | succ n ih =>
    intro acc s
    rw [List.range_succ, List.foldl_append, ih acc s]
    show (if mask.testBit n then
        xorState (xorState acc (polyApplyF n mask s)) (stepIter n s)
      else xorState acc (polyApplyF n mask s), step (stepIter n s)) = _
    rw [pAF_succ_high n mask s]
    rw [← xorState_assoc, ← stepIter_succ']
    by_cases hb : mask.testBit n = true
    · rw [if_pos hb, if_pos hb]
    · rw [if_neg hb, if_neg hb, xorState_zero]

theorem specJumpAlg_eq (mask : Nat) (s : State) :
    specJumpAlg mask s = polyApplyF 256 mask s := by
  unfold specJumpAlg
  rw [spec_fold_loop mask 256 zeroState s]
  exact zeroState_xor _

theorem jumpTable4 (c0 c1 c2 c3 : Nat) (s : State) :
    jumpTable [c0, c1, c2, c3] s =
      xorState (xorState (xorState (polyApplyF 64 c0 s)
        (polyApplyF 64 c1 (stepIter 64 s)))
        (polyApplyF 64 c2 (stepIter 128 s)))
        (polyApplyF 64 c3 (stepIter 192 s)) := by
  show (jumpInner c3 (jumpInner c2 (jumpInner c1 (jumpInner c0 (zeroState, s))))).1 = _
  rw [jumpInner_eq, jumpInner_eq, jumpInner_eq, jumpInner_eq]
  rw [show stepIter 64 (stepIter 64 s) = stepIter 128 s from (stepIter_add 64 64 s).symm]
  rw [show stepIter 64 (stepIter 128 s) = stepIter 192 s from (stepIter_add 128 64 s).symm]
  rw [zeroState_xor]

theorem pAF256_four (mask : Nat) (s : State) :
    polyApplyF 256 mask s =
      xorState (xorState (xorState (polyApplyF 64 mask s)
        (polyApplyF 64 (mask >>> 64) (stepIter 64 s)))
        (polyApplyF 64 (mask >>> 128) (stepIter 128 s)))
        (polyApplyF 64 (mask >>> 192) (stepIter 192 s)) := by
  have hs1 : (mask >>> 64) >>> 64 = mask >>> 128 := by
    rw [← Nat.shiftRight_add]
  have hs2 : (mask >>> 128) >>> 64 = mask >>> 192 := by
    rw [← Nat.shiftRight_add]
  conv_lhs => rw [show (256:Nat) = 64 + 192 from rfl, pAF_split]
  conv_lhs => rw [show (192:Nat) = 64 + 128 from rfl, pAF_split]
  conv_lhs => rw [show (128:Nat) = 64 + 64 from rfl, pAF_split]
  rw [hs1, hs2,
    show stepIter 64 (stepIter 64 s) = stepIter 128 s from (stepIter_add 64 64 s).symm,
    show stepIter 64 (stepIter 128 s) = stepIter 192 s from (stepIter_add 128 64 s).symm,
    ← xorState_assoc, ← xorState_assoc]

theorem jump_eq_pAF (s : State) : jump s = polyApplyF 256 jumpMask s := by
  show jumpTable [0x180ec6d33cfd0aba, 0xd5a61266f0c9392c, 0xa9582618e03fc9aa,
    0x39abdc4529b1661c] s = _
  rw [jumpTable4, pAF256_four]
  conv_rhs => rw [pAF_mod 64 jumpMask, pAF_mod 64 (jumpMask >>> 64),
    pAF_mod 64 (jumpMask >>> 128), pAF_mod 64 (jumpMask >>> 192)]
  rw [show jumpMask % 2 ^ 64 = 0x180ec6d33cfd0aba from by decide,
    show (jumpMask >>> 64) % 2 ^ 64 = 0xd5a61266f0c9392c from by decide,
    show (jumpMask >>> 128) % 2 ^ 64 = 0xa9582618e03fc9aa from by decide,
    show (jumpMask >>> 192) % 2 ^ 64 = 0x39abdc4529b1661c from by decide]

theorem long_jump_eq_pAF (s : State) :
    long_jump s = polyApplyF 256 longJumpMask s := by
  show jumpTable [0x76e15d3efefdcbbf, 0xc5004e441c522fb3, 0x77710069854ee241,
    0x39109bb02acbe635] s = _
  rw [jumpTable4, pAF256_four]
  conv_rhs => rw [pAF_mod 64 longJumpMask, pAF_mod 64 (longJumpMask >>> 64),
    pAF_mod 64 (longJumpMask >>> 128), pAF_mod 64 (longJumpMask >>> 192)]
  rw [show longJumpMask % 2 ^ 64 = 0x76e15d3efefdcbbf from by decide,
    show (longJumpMask >>> 64) % 2 ^ 64 = 0xc5004e441c522fb3 from by decide,
    show (longJumpMask >>> 128) % 2 ^ 64 = 0x77710069854ee241 from by decide,
    show (longJumpMask >>> 192) % 2 ^ 64 = 0x39109bb02acbe635 from by decide]

/-- `jump` advances the state by exactly `2^128` raw output calls. -/
theorem jump_eq_stepIter {s : State} (hs : s.ok) : jump s = stepIter (2 ^ 128) s := by
  rw [jump_eq_pAF, polyApplyF_eq_polyApply 256 jumpMask jumpMask_lt s]
  exact jumpMask_poly s hs

/-- `long_jump` advances the state by exactly `2^192` raw output calls. -/
theorem long_jump_eq_stepIter {s : State} (hs : s.ok) :
    long_jump s = stepIter (2 ^ 192) s := by
  rw [long_jump_eq_pAF, polyApplyF_eq_polyApply 256 longJumpMask longJumpMask_lt s]
  exact longJumpMask_poly s hs

/-! ## Claims C5 and C6: the stream partitioner -/

/-- C5: `jump()` leaves the state equal to the state after exactly `2^128`
consecutive raw output calls, and `long_jump()` to the state after exactly
`2^192` consecutive raw output calls. -/
theorem c5_jump_is_power_steps : ∀ s : State, s.ok →
    jump s = stepIter (2 ^ 128) s ∧ long_jump s = stepIter (2 ^ 192) s :=
  fun _ hs => ⟨jump_eq_stepIter hs, long_jump_eq_stepIter hs⟩

theorem c5_jump_is_power_steps_witness :
    jump ⟨1, 2, 3, 4⟩ = stepIter (2 ^ 128) ⟨1, 2, 3, 4⟩ ∧
      long_jump ⟨1, 2, 3, 4⟩ = stepIter (2 ^ 192) ⟨1, 2, 3, 4⟩ :=
  c5_jump_is_power_steps ⟨1, 2, 3, 4⟩ (by decide)

/-- C6: `jump()` and `long_jump()` both run the spec's accumulator algorithm —
zero the accumulator, walk the 256 bits of the four constants from the first
constant's least-significant bit, XOR the accumulator with the current state
on set bits, advance the state unconditionally each iteration, and finally
replace the state with the accumulator — differing only in the constant
table. -/
theorem c6_jump_accumulator_algorithm (s : State) :
    jump s = specJumpAlg jumpMask s ∧ long_jump s = specJumpAlg longJumpMask s := by
  constructor
  · rw [jump_eq_pAF, specJumpAlg_eq]
  · rw [long_jump_eq_pAF, specJumpAlg_eq]

/-! ## Claim C8: the non-all-zero invariant is preserved -/

theorem step_ne_zero {s : State} (hs : s.ok) (hnz : s ≠ zeroState) :
    step s ≠ zeroState :=
  fun h => hnz (step_eq_zero hs h)

theorem stepIter_ne_zero {s : State} (n : Nat) (hs : s.ok) (hnz : s ≠ zeroState) :
    stepIter n s ≠ zeroState := by
  induction n generalizing s with
  | zero => exact hnz
  | succ n ih => exact ih (step_ok hs) (step_ne_zero hs hnz)

/-- The operations a caller can apply to a generator state. -/
inductive GenOp where
  | call : GenOp
  | jumpOp : GenOp
  | longJumpOp : GenOp

/-- Apply one operation's state effect. -/
def applyOp : GenOp → State → State
  | GenOp.call, s => step s
  | GenOp.jumpOp, s => jump s
  | GenOp.longJumpOp, s => long_jump s

/-- Apply a sequence of operations' state effects. -/
def applyOps : List GenOp → State → State
  | [], s => s
  | op :: ops, s => applyOps ops (applyOp op s)

theorem applyOp_ok {s : State} (op : GenOp) (hs : s.ok) : (applyOp op s).ok := by
  cases op
  · exact step_ok hs
  · rw [show applyOp GenOp.jumpOp s = jump s from rfl, jump_eq_stepIter hs]
    exact stepIter_ok _ hs
  · rw [show applyOp GenOp.longJumpOp s = long_jump s from rfl,
      long_jump_eq_stepIter hs]
    exact stepIter_ok _ hs

theorem applyOp_ne_zero {s : State} (op : GenOp) (hs : s.ok) (hnz : s ≠ zeroState) :
    applyOp op s ≠ zeroState := by
  cases op
  · exact step_ne_zero hs hnz
  · rw [show applyOp GenOp.jumpOp s = jump s from rfl, jump_eq_stepIter hs]
    exact stepIter_ne_zero _ hs hnz
  · rw [show applyOp GenOp.longJumpOp s = long_jump s from rfl,
      long_jump_eq_stepIter hs]
    exact stepIter_ne_zero _ hs hnz

theorem applyOps_inv : ∀ (ops : List GenOp) (s : State), s.ok → s ≠ zeroState →
    (applyOps ops s).ok ∧ applyOps ops s ≠ zeroState := by
  intro ops
  induction ops with
  | nil => intro s hs hnz; exact ⟨hs, hnz⟩
  | cons op ops ih =>
    intro s hs hnz
    exact ih (applyOp op s) (applyOp_ok op hs) (applyOp_ne_zero op hs hnz)

/-- C8: from any well-formed, not-all-zero state, the state after one raw
output call of either variant is again not all-zero, and the invariant is
preserved by every sequence of calls, jumps and long-jumps. -/
theorem c8_nonzero_preserved : ∀ s : State, s.ok → s ≠ zeroState →
    ((ssNext s).2 ≠ zeroState ∧ (pNext s).2 ≠ zeroState) ∧
      ∀ ops : List GenOp, (applyOps ops s).ok ∧ applyOps ops s ≠ zeroState := by
  intro s hs hnz
  exact ⟨⟨step_ne_zero hs hnz, step_ne_zero hs hnz⟩,
    fun ops => applyOps_inv ops s hs hnz⟩

theorem c8_nonzero_preserved_witness :
    (((ssNext ⟨1, 2, 3, 4⟩).2 ≠ zeroState ∧ (pNext ⟨1, 2, 3, 4⟩).2 ≠ zeroState) ∧
      ∀ ops : List GenOp, (applyOps ops ⟨1, 2, 3, 4⟩).ok ∧
        applyOps ops ⟨1, 2, 3, 4⟩ ≠ zeroState) :=
  c8_nonzero_preserved ⟨1, 2, 3, 4⟩ (by decide) (by decide)

/-! ## Claim C10: the binary debug formatter round-trips -/

theorem toBinAux_append : ∀ (n copy : Nat) (res : List Char),
    toBinAux n copy res = toBinAux n copy [] ++ res := by
  intro n
  induction n with
  | zero => intro copy res; rfl
  | succ n ih =>
    intro copy res
    show toBinAux n (copy >>> 1) ((if copy &&& 1 = 1 then '1' else '0') :: res) = _
    rw [ih (copy >>> 1) ((if copy &&& 1 = 1 then '1' else '0') :: res)]
    conv_rhs =>
      rw [show toBinAux (n + 1) copy [] =
        toBinAux n (copy >>> 1) [if copy &&& 1 = 1 then '1' else '0'] from rfl]
      rw [ih (copy >>> 1) [if copy &&& 1 = 1 then '1' else '0']]
    rw [List.append_assoc]
    rfl

theorem toBinAux_length : ∀ (n copy : Nat), (toBinAux n copy []).length = n := by
  intro n
  induction n with
  | zero => intro copy; rfl
  | succ n ih =>
    intro copy
    show (toBinAux n (copy >>> 1) [if copy &&& 1 = 1 then '1' else '0']).length = n + 1
    rw [toBinAux_append, List.length_append, ih]
    rfl

theorem toBinAux_digits : ∀ (n copy : Nat) (c : Char),
    c ∈ toBinAux n copy [] → c = '0' ∨ c = '1' := by
  intro n
  induction n with
  | zero => intro copy c hc; cases hc
  | succ n ih =>
    intro copy c hc
    rw [show toBinAux (n + 1) copy [] =
      toBinAux n (copy >>> 1) [if copy &&& 1 = 1 then '1' else '0'] from rfl,
      toBinAux_append] at hc
    rcases List.mem_append.mp hc with h | h
    · exact ih (copy >>> 1) c h
    · have hc1 : c = if copy &&& 1 = 1 then '1' else '0' := by
        cases h with
        | head => rfl
        | tail _ h2 => cases h2
      rw [hc1]
      split
      · right; rfl
      · left; rfl

theorem toBinAux_foldl : ∀ (n copy a : Nat),
    (toBinAux n copy []).foldl (fun acc c => 2 * acc + (if c = '1' then 1 else 0)) a =
      a * 2 ^ n + copy % 2 ^ n := by
  intro n
  induction n with
  | zero =>
    intro copy a
    simp [toBinAux, Nat.mod_one]
  | succ n ih =>
    intro copy a
    rw [show toBinAux (n + 1) copy [] =
      toBinAux n (copy >>> 1) [if copy &&& 1 = 1 then '1' else '0'] from rfl,
      toBinAux_append, List.foldl_append, ih (copy >>> 1) a]
    show 2 * (a * 2 ^ n + (copy >>> 1) % 2 ^ n) +
      (if (if copy &&& 1 = 1 then '1' else '0') = '1' then 1 else 0) = _
    have hbit : (if (if copy &&& 1 = 1 then '1' else '0') = '1' then 1 else 0) = copy % 2 := by
      rw [Nat.and_one_is_mod]
      rcases Nat.mod_two_eq_zero_or_one copy with h | h <;> simp [h]
    rw [hbit, Nat.shiftRight_one,
      show copy % 2 ^ (n + 1) = copy % 2 + 2 * (copy / 2 % 2 ^ n) from by
        rw [show (2:Nat) ^ (n + 1) = 2 * 2 ^ n from by rw [Nat.pow_succ]; ring,
          Nat.mod_mul],
      Nat.pow_succ]
    ring

/-- C10: the debug formatter maps every `uint64` to a 64-character string of
binary digits, most-significant bit first, and parsing it back in base 2
recovers the value. -/
theorem c10_formatter_roundtrip : ∀ x : Nat, x < M64 →
    (UI64T2String x).length = 64 ∧
      (∀ c ∈ (UI64T2String x).data, c = '0' ∨ c = '1') ∧
      parseBin (UI64T2String x) = x := by
  intro x hx
  refine ⟨?_, ?_, ?_⟩
  · show (String.mk (toBinAux 64 x [])).length = 64
    rw [show (String.mk (toBinAux 64 x [])).length = (toBinAux 64 x []).length from rfl,
      toBinAux_length]
  · intro c hc
    exact toBinAux_digits 64 x c hc
  · show (toBinAux 64 x []).foldl _ 0 = x
    rw [toBinAux_foldl 64 x 0, Nat.zero_mul, Nat.zero_add,
      Nat.mod_eq_of_lt (show x < 2 ^ 64 from hx)]

theorem c10_formatter_roundtrip_witness :
    (parseBin (UI64T2String 0) = 0) ∧ (parseBin (UI64T2String (2 ^ 64 - 1)) = 2 ^ 64 - 1) ∧
      (UI64T2String 0).length = 64 ∧ (UI64T2String (2 ^ 64 - 1)).length = 64 :=
  ⟨(c10_formatter_roundtrip 0 (by decide)).2.2,
    (c10_formatter_roundtrip (2 ^ 64 - 1) (by decide)).2.2,
    (c10_formatter_roundtrip 0 (by decide)).1,
    (c10_formatter_roundtrip (2 ^ 64 - 1) (by decide)).1⟩

/-! ## Claim C9: the `uniform` rejection sampler -/

theorem ssNext_fst_lt (s : State) : (ssNext s).1 < M64 := by
  show (rotl ((s.s1 * 5) % M64) 7 * 9) % M64 < M64
  exact Nat.mod_lt _ (by decide)

/-- The rejection loop accepts the first draw outside `{0, UINT64_MAX}`,
having advanced the state once per draw. -/
theorem uniformLoop_spec : ∀ (fuel : Nat) (s : State) (n : Nat) (s' : State),
    uniformLoop fuel s = some (n, s') →
    (n ≠ 0 ∧ n ≠ uint64Max) ∧
      ∃ k, k < fuel ∧ n = (ssNext (stepIter k s)).1 ∧ s' = stepIter (k + 1) s ∧
        ∀ j, j < k →
          (ssNext (stepIter j s)).1 = 0 ∨ (ssNext (stepIter j s)).1 = uint64Max := by
  intro fuel
  induction fuel with
  | zero =>
    intro s n s' h
    exact absurd h (by simp [uniformLoop])
  | succ fuel ih =>
    intro s n s' h
    rw [show uniformLoop (fuel + 1) s =
      (if (ssNext s).1 = 0 ∨ (ssNext s).1 = uint64Max then uniformLoop fuel (ssNext s).2
        else some ((ssNext s).1, (ssNext s).2)) from rfl] at h
    by_cases hrej : (ssNext s).1 = 0 ∨ (ssNext s).1 = uint64Max
    · rw [if_pos hrej] at h
      obtain ⟨hne, k, hk, hn, hs', hprev⟩ := ih (ssNext s).2 n s' h
      refine ⟨hne, k + 1, by omega, hn, hs', ?_⟩
      intro j hj
      cases j with
      | zero => exact hrej
      | succ j => exact hprev j (by omega)
    · rw [if_neg hrej] at h
      obtain ⟨h1, h2⟩ := Prod.mk.injEq _ _ _ _ |>.mp (Option.some.inj h)
      push_neg at hrej
      refine ⟨⟨by rw [← h1]; exact hrej.1, by rw [← h1]; exact hrej.2⟩,
        0, by omega, h1.symm, h2.symm, fun j hj => absurd hj (by omega)⟩

/-- C9: `uniform(low, high)` redraws while the raw draw is `0` or `2^64-1`,
returns `low + (high-low)*n/(2^64-1)` for the first accepted draw `n` (the
`double` arithmetic idealized as exact rational arithmetic), and that value
lies strictly inside `(low, high)`. -/
theorem c9_uniform_rejection : ∀ (fuel : Nat) (s : State) (low high : ℚ)
    (n : Nat) (s' : State), uniformLoop fuel s = some (n, s') →
    (n ≠ 0 ∧ n ≠ uint64Max) ∧
      (∃ k, k < fuel ∧ n = (ssNext (stepIter k s)).1 ∧ s' = stepIter (k + 1) s ∧
        ∀ j, j < k →
          (ssNext (stepIter j s)).1 = 0 ∨ (ssNext (stepIter j s)).1 = uint64Max) ∧
      uniform fuel s low high =
        some (low + (high - low) * (n : ℚ) / (uint64Max : ℚ), s') ∧
      (low < high →
        low < low + (high - low) * (n : ℚ) / (uint64Max : ℚ) ∧
          low + (high - low) * (n : ℚ) / (uint64Max : ℚ) < high) := by
  intro fuel s low high n s' h
  obtain ⟨hne, hex⟩ := uniformLoop_spec fuel s n s' h
  have huni : uniform fuel s low high =
      some (low + (high - low) * (n : ℚ) / (uint64Max : ℚ), s') := by
    unfold uniform
    rw [h]
    rfl
  refine ⟨hne, hex, huni, ?_⟩
  intro hlh
  have hnlt : n < M64 := by
    obtain ⟨k, _, hn, _, _⟩ := hex
    rw [hn]
    exact ssNext_fst_lt _
  have hn1 : 1 ≤ n := Nat.one_le_iff_ne_zero.mpr hne.1
  have hnmax : n < uint64Max := by
    have h2 := hne.2
    unfold uint64Max at h2 ⊢
    unfold M64 at hnlt
    omega
  have hq0 : (0:ℚ) < (uint64Max : ℚ) := by
    have hpos : (0:Nat) < uint64Max := by decide
    exact_mod_cast hpos
  have hqn : (0:ℚ) < (n : ℚ) := by exact_mod_cast hn1
  have hfrac1 : (n : ℚ) / (uint64Max : ℚ) < 1 := by
    rw [div_lt_one hq0]
    exact_mod_cast hnmax
  have hfrac0 : (0:ℚ) < (n : ℚ) / (uint64Max : ℚ) := div_pos hqn hq0
  constructor
  · have hpos : (0:ℚ) < (high - low) * ((n : ℚ) / (uint64Max : ℚ)) :=
      mul_pos (by linarith) hfrac0
    rw [mul_div_assoc]
    linarith
  · have hlt : (high - low) * ((n : ℚ) / (uint64Max : ℚ)) < (high - low) * 1 :=
      mul_lt_mul_of_pos_left hfrac1 (by linarith)
    rw [mul_div_assoc]
    linarith

theorem c9_uniform_rejection_witness :
    ((11520 ≠ 0 ∧ 11520 ≠ uint64Max) ∧
      (∃ k, k < 1 ∧ 11520 = (ssNext (stepIter k ⟨1, 2, 3, 4⟩)).1 ∧
        (⟨7, 0, 262146, 211106232532992⟩ : State) = stepIter (k + 1) ⟨1, 2, 3, 4⟩ ∧
        ∀ j, j < k → (ssNext (stepIter j ⟨1, 2, 3, 4⟩)).1 = 0 ∨
          (ssNext (stepIter j ⟨1, 2, 3, 4⟩)).1 = uint64Max) ∧
      uniform 1 ⟨1, 2, 3, 4⟩ 0 1 =
        some (0 + (1 - 0) * ((11520 : Nat) : ℚ) / (uint64Max : ℚ),
          (⟨7, 0, 262146, 211106232532992⟩ : State)) ∧
      ((0:ℚ) < 1 →
        (0:ℚ) < 0 + (1 - 0) * ((11520 : Nat) : ℚ) / (uint64Max : ℚ) ∧
          0 + (1 - 0) * ((11520 : Nat) : ℚ) / (uint64Max : ℚ) < 1)) :=
  c9_uniform_rejection 1 ⟨1, 2, 3, 4⟩ 0 1 11520
    ⟨7, 0, 262146, 211106232532992⟩ (by decide)

end Xoshiro256

